import Mathlib

/-!
# Verification of the YouTube quiz generator (src/index.tsx)

A shallow embedding of the quiz application's logic:

* `getYouTubeID` — the URL-identifier extraction (src/index.tsx:197-201),
  modelling the JavaScript regular expression
  `/^.*(youtu.be\/|v\/|u\/\w\/|embed\/|watch\?v=|&v=)([^#&?]*).*/ `
  with exact backtracking semantics: `^.*` is greedy and cannot cross a
  line terminator, so the alternation is matched at the *last* position of
  the first line where some alternative fits (the alternatives start with
  pairwise distinct characters, so at most one alternative fits at a given
  position); capture group 2 is the maximal run of characters other than
  `#`, `&`, `?` after the marker.
* An event-driven state machine for the whole UI (app state, submit,
  retake, restart, option clicks, and the completion of the asynchronous
  model call), faithful to src/index.tsx.

JavaScript strings are modelled as `List Char` / `String`; `.length` counts
scalar values where JavaScript counts UTF-16 units (they agree on all
strings free of astral-plane characters, which covers every string the
claims are about).
-/

set_option autoImplicit false
set_option maxRecDepth 10000

namespace YTQuiz

/-- Line terminators for JavaScript `.` (which matches anything but these). -/
def isLineTerm (c : Char) : Bool :=
  c == '\n' || c == '\r' || c.val == 0x2028 || c.val == 0x2029

/-- JavaScript `\w`: ASCII letters, digits and underscore. -/
def isWordChar (c : Char) : Bool :=
  c.isAlpha || c.isDigit || c == '_'

/-- Alternative `youtu.be\/` of the regex: the `.` is an unescaped wildcard,
so it matches `youtu`, then any non-line-terminator character, then `be/`. -/
def isYoutuDotBe (t : List Char) : Bool :=
  t[0]? == some 'y' && t[1]? == some 'o' && t[2]? == some 'u' &&
  t[3]? == some 't' && t[4]? == some 'u' && (t[5]?.any fun c => !isLineTerm c) &&
  t[6]? == some 'b' && t[7]? == some 'e' && t[8]? == some '/'

/-- Alternative `v\/` of the regex. -/
def isVSlash (t : List Char) : Bool :=
  t[0]? == some 'v' && t[1]? == some '/'

/-- Alternative `u\/\w\/` of the regex: `u/`, one word character, `/`. -/
def isUSlash (t : List Char) : Bool :=
  t[0]? == some 'u' && t[1]? == some '/' && (t[2]?.any isWordChar) &&
  t[3]? == some '/'

/-- Alternative `embed\/` of the regex. -/
def isEmbedSlash (t : List Char) : Bool :=
  t[0]? == some 'e' && t[1]? == some 'm' && t[2]? == some 'b' &&
  t[3]? == some 'e' && t[4]? == some 'd' && t[5]? == some '/'

/-- Alternative `watch\?v=` of the regex. -/
def isWatchV (t : List Char) : Bool :=
  t[0]? == some 'w' && t[1]? == some 'a' && t[2]? == some 't' &&
  t[3]? == some 'c' && t[4]? == some 'h' && t[5]? == some '?' &&
  t[6]? == some 'v' && t[7]? == some '='

/-- Alternative `&v=` of the regex. -/
def isAmpV (t : List Char) : Bool :=
  t[0]? == some '&' && t[1]? == some 'v' && t[2]? == some '='

/-- Does one of the six alternatives of the regex match at the head of `t`?
Returns the length of the matched marker.  The alternatives begin with the
pairwise distinct characters `y v u e w &`, so at most one test succeeds;
the tests are listed in the regex's alternation order. -/
def markerHere (t : List Char) : Option Nat :=
  if isYoutuDotBe t then some 9
  else if isVSlash t then some 2
  else if isUSlash t then some 4
  else if isEmbedSlash t then some 6
  else if isWatchV t then some 8
  else if isAmpV t then some 3
  else none

/-- Capture group 2, `[^#&?]*`: the maximal run of characters other than
`#`, `&` and `?` (greedy; a negated class does match line terminators). -/
def tokenRun : List Char → List Char
  | [] => []
  | c :: rest => if c == '#' || c == '&' || c == '?' then [] else c :: tokenRun rest

/-- Backtracking of the greedy `^.*`: the capture of group 2 for the match
at the *last* position where an alternative fits.  `^.*` matches no line
terminator, so once a line terminator is reached only the match starting at
that very position (with an empty `^.*` prefix) could remain — and no
alternative begins with a line terminator, so the search stops there. -/
def lastMatch : List Char → Option (List Char)
  | [] => none
  | c :: rest =>
    let here : Option (List Char) :=
      match markerHere (c :: rest) with
      | some len => some (tokenRun (List.drop len (c :: rest)))
      | none => none
    if isLineTerm c then here
    else
      match lastMatch rest with
      | some tok => some tok
      | none => here

/-- src/index.tsx:197-201 — `getYouTubeID`: run the regex and return the
second capture group when it has exactly 11 characters, otherwise null. -/
def getYouTubeID (url : String) : Option String :=
  match lastMatch url.toList with
  | some tok => if tok.length = 11 then some (String.mk tok) else none
  | none => none

/-- src/index.tsx:37-41 — interface `QuizQuestion`. -/
structure QuizQuestion where
  question : String
  options : List String
  answer : String
deriving DecidableEq, Repr

/-- One rendered option label: its text plus its CSS classes `selected`,
`correct`, `incorrect`, and the disabled state of its radio input
(src/index.tsx:227-242 build it, src/index.tsx:262-287 mutate it). -/
structure RenderedOption where
  text : String
  selected : Bool
  markedCorrect : Bool
  markedIncorrect : Bool
  disabled : Bool
deriving DecidableEq, Repr

/-- One rendered question block: the `answer` captured by the click handler's
closure, the option labels, and whether the options container carries the
`answered` class (src/index.tsx:213-259). -/
structure RenderedQuestion where
  answer : String
  options : List RenderedOption
  answered : Bool
deriving DecidableEq, Repr

/-- Outcome of one `ai.models.generateContent` call as observed by the
`try`/`catch` in `generateQuiz`: either a parsed question array, or a
transport/parse error carrying `error.message`. -/
inductive GenResult where
  | ok (qs : List QuizQuestion)
  | err (msg : String)
deriving DecidableEq, Repr

/-- One request issued to the generative model: the transcript and exclusion
list `generateQuiz` was invoked with, and the prompt text it built
(src/index.tsx:65-92). -/
structure GenRequest where
  transcript : String
  exclude : List QuizQuestion
  prompt : List Char
deriving DecidableEq, Repr

/-- An in-flight `generateQuiz` call, waiting at the `await` of the model
call, together with what its caller's continuation needs: the submit handler
assigns `currentTranscript`/`currentVideoId` after the await
(src/index.tsx:130-134), the retake handler only resets its buttons
(src/index.tsx:160-166). -/
inductive PendingCall where
  | submitCall (transcript vid : String)
  | retakeCall
deriving DecidableEq, Repr

/-- The whole mutable state of the page: the app-state globals
(src/index.tsx:29-34), the DOM regions and controls the script mutates, the
list of issued model requests, and the queue of in-flight calls. -/
structure AppState where
  totalQuestions : Nat
  answeredQuestions : Nat
  correctAnswers : Nat
  currentTranscript : Option String
  currentVideoId : Option String
  previousQuestions : List QuizQuestion
  urlInput : String
  transcriptInput : String
  formErrorVisible : Bool
  formErrorText : String
  outputHidden : Bool
  videoContainer : Option String
  questionsList : List RenderedQuestion
  errorVisible : Bool
  errorText : String
  resultsVisible : Bool
  resultsData : Option (Nat × Nat)
  loaderVisible : Bool
  generateBtnDisabled : Bool
  generateBtnText : String
  retakeBtnDisabled : Bool
  restartBtnDisabled : Bool
  retakeBtnText : String
  requests : List GenRequest
  pending : List PendingCall
deriving DecidableEq, Repr

/-- The page's initial state: empty inputs, zeroed counters, nothing
rendered, all controls enabled. -/
def initState : AppState where
  totalQuestions := 0
  answeredQuestions := 0
  correctAnswers := 0
  currentTranscript := none
  currentVideoId := none
  previousQuestions := []
  urlInput := ""
  transcriptInput := ""
  formErrorVisible := false
  formErrorText := ""
  outputHidden := true
  videoContainer := none
  questionsList := []
  errorVisible := false
  errorText := ""
  resultsVisible := false
  resultsData := none
  loaderVisible := false
  generateBtnDisabled := false
  generateBtnText := "Generate Quiz"
  retakeBtnDisabled := false
  restartBtnDisabled := false
  retakeBtnText := "Generate New Questions"
  requests := []
  pending := []

/-- JavaScript truthiness of a nullable string: `null` and `""` are falsy. -/
def truthy : Option String → Bool
  | none => false
  | some s => !(s == "")

/-- Replace the element at an index, leaving the list unchanged when the
index is out of range. -/
def modifyAt {α : Type} (f : α → α) : Nat → List α → List α
  | _, [] => []
  | 0, x :: xs => f x :: xs
  | n + 1, x :: xs => x :: modifyAt f n xs

/-- src/index.tsx:184-188 — `clearOutput`: hide the error block, empty the
question list, hide the results container. -/
def clearOutput (s : AppState) : AppState :=
  { s with errorVisible := false, questionsList := [], resultsVisible := false }

/-- src/index.tsx:190-195 — `displayError`: clear the output, empty the
video container, show the message. -/
def displayError (message : String) (s : AppState) : AppState :=
  let s := clearOutput s
  { s with videoContainer := none, errorText := message, errorVisible := true }

/-- src/index.tsx:171-182 — `setLoading`: toggles the loader and the
generate button only. -/
def setLoading (isLoading : Bool) (s : AppState) : AppState :=
  if isLoading then
    { s with loaderVisible := true, generateBtnDisabled := true,
             generateBtnText := "Generating..." }
  else
    { s with loaderVisible := false, generateBtnDisabled := false,
             generateBtnText := "Generate Quiz" }

/-- `Array.prototype.join`: concatenation with a separator between
consecutive elements. -/
def joinSep (sep : List Char) : List (List Char) → List Char
  | [] => []
  | [x] => x
  | x :: y :: xs => x ++ sep ++ joinSep sep (y :: xs)

/-- src/index.tsx:65 — the fixed instruction prompt. -/
def promptIntro : String :=
  "You are an expert at creating quizzes. Based on the following video transcript, please generate 5 insightful multiple-choice questions to test comprehension of the key topics. For each question, provide 4 distinct options, with one being the correct answer. The answer must be one of the options. Ensure the questions cover different parts of the transcript."

/-- src/index.tsx:69 — the exclusion instruction, up to the interpolated
list of previously asked question texts. -/
def promptAvoid : String :=
  "\n\nIMPORTANT: Do NOT repeat any questions from this list. Generate a completely new and different set of questions. Here are the questions that have already been asked:\n - "

/-- src/index.tsx:72 — the transcript header appended last. -/
def promptTranscript : String :=
  "\n\nHere is the transcript: \n\n"

/-- src/index.tsx:65-72 — the prompt `generateQuiz` builds: the fixed
instructions; if the exclusion list is non-empty, the avoid-instruction
followed by every excluded question's text joined with `"\n - "`; then the
transcript verbatim. -/
def genPrompt (transcript : String) (existingQuestions : List QuizQuestion) : List Char :=
  let base := promptIntro.toList
  let base :=
    if existingQuestions.length > 0 then
      base ++ promptAvoid.toList ++
        joinSep ("\n - ".toList) (existingQuestions.map fun q => q.question.toList)
    else base
  base ++ promptTranscript.toList ++ transcript.toList

/-- src/index.tsx:49-92 — the synchronous part of `generateQuiz` before the
`await`: embed the video if a `videoId` was passed, unhide the output
region, clear prior output, build the prompt and issue the model request.
`pc` is the continuation the enclosing handler runs after the await. -/
def generateQuizStart (transcript : String) (videoId : Option String)
    (existingQuestions : List QuizQuestion) (pc : PendingCall) (s : AppState) : AppState :=
  let s :=
    match videoId with
    | some v => { s with videoContainer := some v }
    | none => s
  let s := { s with outputHidden := false }
  let s := clearOutput s
  { s with
      requests := s.requests ++
        [{ transcript := transcript, exclude := existingQuestions,
           prompt := genPrompt transcript existingQuestions }],
      pending := s.pending ++ [pc] }

/-- src/index.tsx:229-242 — a freshly rendered option label: no classes,
enabled input. -/
def renderOption (text : String) : RenderedOption :=
  { text := text, selected := false, markedCorrect := false,
    markedIncorrect := false, disabled := false }

/-- src/index.tsx:213-259 — a freshly rendered question block. -/
def renderQuestion (q : QuizQuestion) : RenderedQuestion :=
  { answer := q.answer, options := q.options.map renderOption, answered := false }

/-- src/index.tsx:203-260 — `renderQuestions`: an empty array produces an
error display; otherwise the score counters are reset and one block per
question is *appended* to the questions list (the DOM `appendChild` does not
clear previous children). -/
def renderQuestions (questions : List QuizQuestion) (s : AppState) : AppState :=
  if questions.length = 0 then
    displayError "No questions were generated. The transcript might be too short or unclear." s
  else
    { s with
        totalQuestions := questions.length,
        answeredQuestions := 0,
        correctAnswers := 0,
        questionsList := s.questionsList ++ questions.map renderQuestion }

/-- src/index.tsx:94-102 — the part of `generateQuiz` after the `await`:
on success parse the payload, append it to `previousQuestions`, render it;
on any transport or parse error display the error message. -/
def generateQuizFinish (outcome : GenResult) (s : AppState) : AppState :=
  match outcome with
  | .ok quizData =>
      renderQuestions quizData { s with previousQuestions := s.previousQuestions ++ quizData }
  | .err msg => displayError ("Failed to generate quiz. " ++ msg) s

/-- src/index.tsx:131-134 — the submit handler's continuation after
`await generateQuiz(...)`: store transcript and identifier (unconditionally,
the awaited call never throws), then leave the loading state. -/
def finishSubmit (transcript vid : String) (s : AppState) : AppState :=
  setLoading false { s with currentTranscript := some transcript, currentVideoId := some vid }

/-- src/index.tsx:162-166 — the retake handler's continuation after
`await generateQuiz(...)`: hide the loader, re-enable both buttons, restore
the button caption. -/
def finishRetake (s : AppState) : AppState :=
  { s with loaderVisible := false, retakeBtnDisabled := false,
           restartBtnDisabled := false, retakeBtnText := "Generate New Questions" }

/-- Completion of the in-flight call at index `k` of the pending queue with
outcome `outcome`: the rest of `generateQuiz` runs, then the enclosing
handler's continuation.  Does nothing when no such call is pending. -/
def completeAt (k : Nat) (outcome : GenResult) (s : AppState) : AppState :=
  match s.pending[k]? with
  | none => s
  | some pc =>
      let s := { s with pending := s.pending.eraseIdx k }
      let s := generateQuizFinish outcome s
      match pc with
      | .submitCall transcript vid => finishSubmit transcript vid s
      | .retakeCall => finishRetake s

/-- Whitespace for JavaScript `String.prototype.trim`: space, tab, line
terminators, vertical tab, form feed, no-break space, BOM (the remaining
Unicode space separators are omitted; no string in question contains
them). -/
def isJsWhitespace (c : Char) : Bool :=
  c == ' ' || c == '\t' || c == '\n' || c == '\r' || c.val == 0x0B ||
  c.val == 0x0C || c.val == 0xA0 || c.val == 0xFEFF || c.val == 0x2028 ||
  c.val == 0x2029

/-- JavaScript `String.prototype.trim`: strip leading and trailing
whitespace. -/
def trimStr (s : String) : String :=
  String.mk (((s.toList.dropWhile isJsWhitespace).reverse.dropWhile isJsWhitespace).reverse)

/-- src/index.tsx:106-130 — the submit handler up to its `await`: hide the
form error, trim the inputs, validate the URL and the transcript length
(each failure shows an inline message and returns), then enter the loading
state, clear output, empty the video container, reset the history and start
`generateQuiz` with the new identifier and an empty exclusion list.  A
disabled generate button blocks form submission. -/
def submitStart (s : AppState) : AppState :=
  if s.generateBtnDisabled then s
  else
    let s := { s with formErrorVisible := false }
    let url := trimStr s.urlInput
    let transcript := trimStr s.transcriptInput
    match getYouTubeID url with
    | none =>
        { s with formErrorText := "Please enter a valid YouTube video URL.",
                 formErrorVisible := true }
    | some vid =>
        if transcript = "" ∨ transcript.length < 100 then
          { s with
              formErrorText := "Please paste the transcript. It must be at least 100 characters long.",
              formErrorVisible := true }
        else
          let s := setLoading true s
          let s := clearOutput s
          let s := { s with videoContainer := none }
          let s := { s with previousQuestions := [] }
          generateQuizStart transcript (some vid) [] (.submitCall transcript vid) s

/-- src/index.tsx:151-160 — the retake handler up to its `await`: guarded by
the truthiness of `currentTranscript` and `currentVideoId`; disables the
retake and restart buttons, shows the loader, and starts `generateQuiz` with
a null video id and the accumulated history as exclusion list.  A disabled
retake button blocks the click. -/
def retakeStart (s : AppState) : AppState :=
  if s.retakeBtnDisabled then s
  else
    match s.currentTranscript, s.currentVideoId with
    | some transcript, some vid =>
        if transcript = "" ∨ vid = "" then s
        else
          let s := { s with retakeBtnDisabled := true, restartBtnDisabled := true,
                            retakeBtnText := "Generating...", loaderVisible := true }
          generateQuizStart transcript none s.previousQuestions .retakeCall s
    | _, _ => s

/-- src/index.tsx:138-149 — the restart handler: hide the output region,
empty the video container, clear output, empty both inputs, null the session
fields, empty the history, hide the form error.  A disabled restart button
blocks the click. -/
def restartClick (s : AppState) : AppState :=
  if s.restartBtnDisabled then s
  else
    let s := { s with outputHidden := true }
    let s := { s with videoContainer := none }
    let s := clearOutput s
    { s with urlInput := "", transcriptInput := "",
             currentTranscript := none, currentVideoId := none,
             previousQuestions := [], formErrorVisible := false }

/-- src/index.tsx:271-277 — `allOptionElements.find(...)`: mark the first
option whose input value equals the correct answer, if any. -/
def markFirstCorrect (answer : String) : List RenderedOption → List RenderedOption
  | [] => []
  | o :: rest =>
      if o.text = answer then { o with markedCorrect := true } :: rest
      else o :: markFirstCorrect answer rest

/-- src/index.tsx:262-287 — `checkAnswer`: deselect all options, select the
clicked one (index `j`, text `selText`); if it equals the answer mark it
correct (and report a hit, for `correctAnswers++`), otherwise mark it
incorrect and reveal the first option matching the answer; finally disable
every input. -/
def checkAnswer (opts : List RenderedOption) (j : Nat) (selText answer : String) :
    List RenderedOption × Bool :=
  let opts := opts.map fun o => { o with selected := false }
  let opts := modifyAt (fun o => { o with selected := true }) j opts
  let (opts, hit) :=
    if selText = answer then
      (modifyAt (fun o => { o with markedCorrect := true }) j opts, true)
    else
      (markFirstCorrect answer (modifyAt (fun o => { o with markedIncorrect := true }) j opts), false)
  (opts.map fun o => { o with disabled := true }, hit)

/-- src/index.tsx:289-307 — `displayResults`: shows the results container;
its title and summary are a pure function of `(correctAnswers,
totalQuestions)` (computed with JavaScript double arithmetic), modelled here
as that pair. -/
def displayResults (s : AppState) : AppState :=
  { s with resultsVisible := true, resultsData := some (s.correctAnswers, s.totalQuestions) }

/-- src/index.tsx:244-254 — the click handler of option `j` of rendered
question `i`: a no-op once the block has the `answered` class; otherwise run
`checkAnswer`, add the `answered` class, bump `correctAnswers` on a hit and
`answeredQuestions` always, and show the results when every question is
answered.  Clicks on non-existent blocks or options cannot occur. -/
def clickOption (i j : Nat) (s : AppState) : AppState :=
  match s.questionsList[i]? with
  | none => s
  | some rq =>
      match rq.options[j]? with
      | none => s
      | some opt =>
          if rq.answered then s
          else
            let res := checkAnswer rq.options j opt.text rq.answer
            let rq := { rq with options := res.1, answered := true }
            let s := { s with
                         questionsList := modifyAt (fun _ => rq) i s.questionsList,
                         correctAnswers := if res.2 then s.correctAnswers + 1 else s.correctAnswers }
            let s := { s with answeredQuestions := s.answeredQuestions + 1 }
            if s.answeredQuestions = s.totalQuestions then displayResults s else s

/-- The externally triggered events: the user edits the inputs, submits the
form, clicks retake, restart or an option; or the in-flight model call at
index `k` of the pending queue completes with the given outcome. -/
inductive Event where
  | setInputs (url transcript : String)
  | submit
  | retake
  | restart
  | complete (k : Nat) (outcome : GenResult)
  | click (i j : Nat)
deriving DecidableEq, Repr

/-- One step of the machine. -/
def step : Event → AppState → AppState
  | .setInputs url transcript, s => { s with urlInput := url, transcriptInput := transcript }
  | .submit, s => submitStart s
  | .retake, s => retakeStart s
  | .restart, s => restartClick s
  | .complete k outcome, s => completeAt k outcome s
  | .click i j, s => clickOption i j s

/-- Run a sequence of events. -/
def run (evs : List Event) (s : AppState) : AppState :=
  evs.foldl (fun s e => step e s) s

/-- A state the page can reach from its initial state. -/
def Reachable (s : AppState) : Prop :=
  ∃ evs : List Event, run evs initState = s

/-- Characters that keep a token inert for the regex: not a stop of the
class `[^#&?]` and not the `/` or `=` every alternation marker needs. -/
def plainTokenChar (c : Char) : Bool :=
  !(c == '/' || c == '=' || c == '#' || c == '&' || c == '?')

/-- The markers the regex actually accepts: the six alternatives with the
unescaped dot of `youtu.be` standing for an arbitrary non-line-terminator
character and `\w` for an arbitrary word character. -/
inductive RegexMarker where
  | youtuDotBe (c : Char)
  | vSlash
  | uSlash (c : Char)
  | embedSlash
  | watchV
  | ampV
deriving DecidableEq, Repr

/-- The character sequence a marker stands for. -/
def RegexMarker.chars : RegexMarker → List Char
  | .youtuDotBe c => ['y', 'o', 'u', 't', 'u', c, 'b', 'e', '/']
  | .vSlash => ['v', '/']
  | .uSlash c => ['u', '/', c, '/']
  | .embedSlash => ['e', 'm', 'b', 'e', 'd', '/']
  | .watchV => ['w', 'a', 't', 'c', 'h', '?', 'v', '=']
  | .ampV => ['&', 'v', '=']

/-- The side condition on a marker's wildcard character. -/
def RegexMarker.Ok : RegexMarker → Prop
  | .youtuDotBe c => isLineTerm c = false
  | .uSlash c => isWordChar c = true
  | _ => True

/-- Modelled from the spec (§4.1): the six recognized URL forms are
`youtu.be/<id>`, `/v/<id>`, `/u/<digit>/<id>`, `/embed/<id>`, `watch?v=<id>`
and `&v=<id>`; a string of one of these forms contains the corresponding
literal marker — with a real dot in `youtu.be/` and a decimal digit in the
`/u/` segment — as a substring.  This tests such a literal marker at the head
of `t`; it is the specification-side comparison point for `markerHere`. -/
def specLiteralMarkerHere (t : List Char) : Bool :=
  (t[0]? == some 'y' && t[1]? == some 'o' && t[2]? == some 'u' && t[3]? == some 't' &&
    t[4]? == some 'u' && t[5]? == some '.' && t[6]? == some 'b' && t[7]? == some 'e' &&
    t[8]? == some '/') ||
  (t[0]? == some 'v' && t[1]? == some '/') ||
  (t[0]? == some 'u' && t[1]? == some '/' && (t[2]?.any Char.isDigit) && t[3]? == some '/') ||
  (t[0]? == some 'e' && t[1]? == some 'm' && t[2]? == some 'b' && t[3]? == some 'e' &&
    t[4]? == some 'd' && t[5]? == some '/') ||
  (t[0]? == some 'w' && t[1]? == some 'a' && t[2]? == some 't' && t[3]? == some 'c' &&
    t[4]? == some 'h' && t[5]? == some '?' && t[6]? == some 'v' && t[7]? == some '=') ||
  (t[0]? == some '&' && t[1]? == some 'v' && t[2]? == some '=')

/-- Modelled from the spec (§4.1): does any literal marker of the recognized
forms occur anywhere in the string?  A necessary condition for the string to
match one of the recognized URL forms. -/
def specHasLiteralMarker : List Char → Bool
  | [] => false
  | c :: rest => specLiteralMarkerHere (c :: rest) || specHasLiteralMarker rest

/-- Is this pending call a submit-triggered generation? -/
def isSubmitCall : PendingCall → Bool
  | .submitCall _ _ => true
  | .retakeCall => false

/-- Is this pending call a retake-triggered generation? -/
def isRetakeCall : PendingCall → Bool
  | .submitCall _ _ => false
  | .retakeCall => true

/-- The control-gating invariant the code actually maintains: each kind of
generation is guarded by its own triggering control — an enabled generate
button means no submit call is pending, an enabled retake (or restart) button
means no retake call is pending — and each kind has at most one call in
flight. -/
def ControlInv (s : AppState) : Prop :=
  (s.generateBtnDisabled = false → s.pending.countP isSubmitCall = 0) ∧
  (s.retakeBtnDisabled = false → s.pending.countP isRetakeCall = 0) ∧
  s.pending.countP isSubmitCall ≤ 1 ∧
  s.pending.countP isRetakeCall ≤ 1 ∧
  (s.restartBtnDisabled = false → s.pending.countP isRetakeCall = 0)

/-- The number of rendered question blocks not yet locked. -/
def countUnanswered (l : List RenderedQuestion) : Nat :=
  l.countP (fun rq => !rq.answered)

/-- The scoring invariant of sequential (non-overlapping) runs: the answered
counter plus the unanswered blocks never exceeds the total, the question list
is empty while a call is in flight, and at most one call is in flight. -/
def ScoreInv (s : AppState) : Prop :=
  s.answeredQuestions + countUnanswered s.questionsList ≤ s.totalQuestions ∧
  (s.pending ≠ [] → s.questionsList = []) ∧
  s.pending.length ≤ 1

/-- Is this event the start of a generation (a submit or a retake)? -/
def isStartEv : Event → Bool
  | .submit => true
  | .retake => true
  | _ => false

/-- A run of the machine in which every generation is started only while no
other call is in flight: the sequential behaviour the page exhibits when the
user waits for each busy period to end. -/
def seqOK : AppState → List Event → Bool
  | _, [] => true
  | s, e :: evs => (!isStartEv e || s.pending.isEmpty) && seqOK (step e s) evs

/-! ## Lemmas -/

lemma tokenRun_all {l : List Char} (h : ∀ c ∈ l, plainTokenChar c = true) :
    tokenRun l = l := by
  induction l with
  | nil => rfl
  | cons c tl ih =>
      have hc := h c (by simp)
      simp only [plainTokenChar, Bool.not_eq_true', Bool.or_eq_false_iff, beq_eq_false_iff_ne,
        ne_eq] at hc
      obtain ⟨⟨⟨⟨hc1, hc2⟩, hc3⟩, hc4⟩, hc5⟩ := hc
      simp [tokenRun, hc3, hc4, hc5, ih fun d hd => h d (by simp [hd])]

lemma markerHere_none_of_plain {t : List Char}
    (h : ∀ c ∈ t, c ≠ '/' ∧ c ≠ '=') : markerHere t = none := by
  have hslash : ∀ i : Nat, t[i]? ≠ some '/' := by
    intro i hi
    exact ((h _ (List.getElem?_mem hi)).1 rfl)
  have heq : ∀ i : Nat, t[i]? ≠ some '=' := by
    intro i hi
    exact ((h _ (List.getElem?_mem hi)).2 rfl)
  have h8 := hslash 8
  have h1 := hslash 1
  have h3 := hslash 3
  have h5 := hslash 5
  have h7 := heq 7
  have h2 := heq 2
  simp [markerHere, isYoutuDotBe, isVSlash, isUSlash, isEmbedSlash, isWatchV, isAmpV,
    h8, h1, h3, h5, h7, h2]

lemma plain_to_ne {id : List Char} (hid : ∀ c ∈ id, plainTokenChar c = true) :
    ∀ c ∈ id, c ≠ '/' ∧ c ≠ '=' := by
  intro c hc
  have h := hid c hc
  simp only [plainTokenChar, Bool.not_eq_true', Bool.or_eq_false_iff, beq_eq_false_iff_ne,
    ne_eq] at h
  exact ⟨h.1.1.1.1, h.1.1.1.2⟩

lemma lastMatch_none_of_plain {t : List Char}
    (h : ∀ c ∈ t, c ≠ '/' ∧ c ≠ '=') : lastMatch t = none := by
  induction t with
  | nil => rfl
  | cons c tl ih =>
      have hm : markerHere (c :: tl) = none := markerHere_none_of_plain h
      have ih' : lastMatch tl = none := ih fun d hd => h d (by simp [hd])
      simp [lastMatch, hm, ih']

lemma lastMatch_cons_none {c : Char} {rest : List Char} (h : lastMatch rest = none) :
    lastMatch (c :: rest) =
      match markerHere (c :: rest) with
      | some len => some (tokenRun (List.drop len (c :: rest)))
      | none => none := by
  simp only [lastMatch, h]
  cases isLineTerm c <;> simp

lemma lastMatch_cons_some {c : Char} {rest tok : List Char}
    (hc : isLineTerm c = false) (h : lastMatch rest = some tok) :
    lastMatch (c :: rest) = some tok := by
  simp [lastMatch, hc, h]

lemma lastMatch_append {pre rest tok : List Char}
    (hpre : ∀ c ∈ pre, isLineTerm c = false) (h : lastMatch rest = some tok) :
    lastMatch (pre ++ rest) = some tok := by
  induction pre with
  | nil => simpa using h
  | cons c pre ih =>
      have := lastMatch_cons_some (hpre c (by simp))
        (ih fun d hd => hpre d (by simp [hd]))
      simpa using this

lemma lastMatch_marker_vSlash {id : List Char} (hid : ∀ c ∈ id, plainTokenChar c = true) :
    lastMatch ('v' :: '/' :: id) = some id := by
  have h0 : lastMatch id = none := lastMatch_none_of_plain (plain_to_ne hid)
  have h1 : lastMatch ('/' :: id) = none := by
    rw [lastMatch_cons_none h0]
    simp [markerHere, isYoutuDotBe, isVSlash, isUSlash, isEmbedSlash, isWatchV, isAmpV]
  rw [lastMatch_cons_none h1]
  simp [markerHere, isYoutuDotBe, isVSlash, isUSlash, isEmbedSlash, isWatchV, isAmpV,
    tokenRun_all hid]

lemma lastMatch_marker_ampV {id : List Char} (hid : ∀ c ∈ id, plainTokenChar c = true) :
    lastMatch ('&' :: 'v' :: '=' :: id) = some id := by
  have h2 : lastMatch ('=' :: id) = none := by
    rw [lastMatch_cons_none (lastMatch_none_of_plain (plain_to_ne hid))]
    simp [markerHere, isYoutuDotBe, isVSlash, isUSlash, isEmbedSlash, isWatchV, isAmpV]
  have h1 : lastMatch ('v' :: '=' :: id) = none := by
    rw [lastMatch_cons_none h2]
    simp [markerHere, isYoutuDotBe, isVSlash, isUSlash, isEmbedSlash, isWatchV, isAmpV]
  rw [lastMatch_cons_none h1]
  simp [markerHere, isYoutuDotBe, isVSlash, isUSlash, isEmbedSlash, isWatchV, isAmpV,
    tokenRun_all hid]

lemma lastMatch_marker_embed {id : List Char} (hid : ∀ c ∈ id, plainTokenChar c = true) :
    lastMatch ('e' :: 'm' :: 'b' :: 'e' :: 'd' :: '/' :: id) = some id := by
  have h5 : lastMatch ('/' :: id) = none := by
    rw [lastMatch_cons_none (lastMatch_none_of_plain (plain_to_ne hid))]
    simp [markerHere, isYoutuDotBe, isVSlash, isUSlash, isEmbedSlash, isWatchV, isAmpV]
  have h4 : lastMatch ('d' :: '/' :: id) = none := by
    rw [lastMatch_cons_none h5]
    simp [markerHere, isYoutuDotBe, isVSlash, isUSlash, isEmbedSlash, isWatchV, isAmpV]
  have h3 : lastMatch ('e' :: 'd' :: '/' :: id) = none := by
    rw [lastMatch_cons_none h4]
    simp [markerHere, isYoutuDotBe, isVSlash, isUSlash, isEmbedSlash, isWatchV, isAmpV]
  have h2 : lastMatch ('b' :: 'e' :: 'd' :: '/' :: id) = none := by
    rw [lastMatch_cons_none h3]
    simp [markerHere, isYoutuDotBe, isVSlash, isUSlash, isEmbedSlash, isWatchV, isAmpV]
  have h1 : lastMatch ('m' :: 'b' :: 'e' :: 'd' :: '/' :: id) = none := by
    rw [lastMatch_cons_none h2]
    simp [markerHere, isYoutuDotBe, isVSlash, isUSlash, isEmbedSlash, isWatchV, isAmpV]
  rw [lastMatch_cons_none h1]
  simp [markerHere, isYoutuDotBe, isVSlash, isUSlash, isEmbedSlash, isWatchV, isAmpV,
    tokenRun_all hid]

lemma lastMatch_marker_watchV {id : List Char} (hid : ∀ c ∈ id, plainTokenChar c = true) :
    lastMatch ('w' :: 'a' :: 't' :: 'c' :: 'h' :: '?' :: 'v' :: '=' :: id) = some id := by
  have h7 : lastMatch ('=' :: id) = none := by
    rw [lastMatch_cons_none (lastMatch_none_of_plain (plain_to_ne hid))]
    simp [markerHere, isYoutuDotBe, isVSlash, isUSlash, isEmbedSlash, isWatchV, isAmpV]
  have h6 : lastMatch ('v' :: '=' :: id) = none := by
    rw [lastMatch_cons_none h7]
    simp [markerHere, isYoutuDotBe, isVSlash, isUSlash, isEmbedSlash, isWatchV, isAmpV]
  have h5 : lastMatch ('?' :: 'v' :: '=' :: id) = none := by
    rw [lastMatch_cons_none h6]
    simp [markerHere, isYoutuDotBe, isVSlash, isUSlash, isEmbedSlash, isWatchV, isAmpV]
  have h4 : lastMatch ('h' :: '?' :: 'v' :: '=' :: id) = none := by
    rw [lastMatch_cons_none h5]
    simp [markerHere, isYoutuDotBe, isVSlash, isUSlash, isEmbedSlash, isWatchV, isAmpV]
  have h3 : lastMatch ('c' :: 'h' :: '?' :: 'v' :: '=' :: id) = none := by
    rw [lastMatch_cons_none h4]
    simp [markerHere, isYoutuDotBe, isVSlash, isUSlash, isEmbedSlash, isWatchV, isAmpV]
  have h2 : lastMatch ('t' :: 'c' :: 'h' :: '?' :: 'v' :: '=' :: id) = none := by
    rw [lastMatch_cons_none h3]
    simp [markerHere, isYoutuDotBe, isVSlash, isUSlash, isEmbedSlash, isWatchV, isAmpV]
  have h1 : lastMatch ('a' :: 't' :: 'c' :: 'h' :: '?' :: 'v' :: '=' :: id) = none := by
    rw [lastMatch_cons_none h2]
    simp [markerHere, isYoutuDotBe, isVSlash, isUSlash, isEmbedSlash, isWatchV, isAmpV]
  rw [lastMatch_cons_none h1]
  simp [markerHere, isYoutuDotBe, isVSlash, isUSlash, isEmbedSlash, isWatchV, isAmpV,
    tokenRun_all hid]

lemma lastMatch_marker_youtu {c : Char} {id : List Char} (hw : isLineTerm c = false)
    (hid : ∀ c' ∈ id, plainTokenChar c' = true) :
    lastMatch ('y' :: 'o' :: 'u' :: 't' :: 'u' :: c :: 'b' :: 'e' :: '/' :: id) = some id := by
  have h8 : lastMatch ('/' :: id) = none := by
    rw [lastMatch_cons_none (lastMatch_none_of_plain (plain_to_ne hid))]
    simp [markerHere, isYoutuDotBe, isVSlash, isUSlash, isEmbedSlash, isWatchV, isAmpV]
  have h7 : lastMatch ('e' :: '/' :: id) = none := by
    rw [lastMatch_cons_none h8]
    simp [markerHere, isYoutuDotBe, isVSlash, isUSlash, isEmbedSlash, isWatchV, isAmpV]
  have h6 : lastMatch ('b' :: 'e' :: '/' :: id) = none := by
    rw [lastMatch_cons_none h7]
    simp [markerHere, isYoutuDotBe, isVSlash, isUSlash, isEmbedSlash, isWatchV, isAmpV]
  have h5 : lastMatch (c :: 'b' :: 'e' :: '/' :: id) = none := by
    rw [lastMatch_cons_none h6]
    simp [markerHere, isYoutuDotBe, isVSlash, isUSlash, isEmbedSlash, isWatchV, isAmpV]
  have h4 : lastMatch ('u' :: c :: 'b' :: 'e' :: '/' :: id) = none := by
    rw [lastMatch_cons_none h5]
    simp [markerHere, isYoutuDotBe, isVSlash, isUSlash, isEmbedSlash, isWatchV, isAmpV]
  have h3 : lastMatch ('t' :: 'u' :: c :: 'b' :: 'e' :: '/' :: id) = none := by
    rw [lastMatch_cons_none h4]
    simp [markerHere, isYoutuDotBe, isVSlash, isUSlash, isEmbedSlash, isWatchV, isAmpV]
  have h2 : lastMatch ('u' :: 't' :: 'u' :: c :: 'b' :: 'e' :: '/' :: id) = none := by
    rw [lastMatch_cons_none h3]
    simp [markerHere, isYoutuDotBe, isVSlash, isUSlash, isEmbedSlash, isWatchV, isAmpV]
  have h1 : lastMatch ('o' :: 'u' :: 't' :: 'u' :: c :: 'b' :: 'e' :: '/' :: id) = none := by
    rw [lastMatch_cons_none h2]
    simp [markerHere, isYoutuDotBe, isVSlash, isUSlash, isEmbedSlash, isWatchV, isAmpV]
  rw [lastMatch_cons_none h1]
  simp [markerHere, isYoutuDotBe, isVSlash, isUSlash, isEmbedSlash, isWatchV, isAmpV, hw,
    tokenRun_all hid]

lemma lastMatch_marker_uSlash {c : Char} {id : List Char} (hw : isWordChar c = true)
    (hid : ∀ c' ∈ id, plainTokenChar c' = true) :
    lastMatch ('u' :: '/' :: c :: '/' :: id) = some id := by
  have h3 : lastMatch ('/' :: id) = none := by
    rw [lastMatch_cons_none (lastMatch_none_of_plain (plain_to_ne hid))]
    simp [markerHere, isYoutuDotBe, isVSlash, isUSlash, isEmbedSlash, isWatchV, isAmpV]
  by_cases hcv : c = 'v'
  · subst hcv
    have h2 : lastMatch ('v' :: '/' :: id) = some id := lastMatch_marker_vSlash hid
    have h1 : lastMatch ('/' :: 'v' :: '/' :: id) = some id :=
      lastMatch_cons_some (by decide) h2
    exact lastMatch_cons_some (by decide) h1
  · have hcv' : (c == 'v') = false := by simpa using hcv
    have h2 : lastMatch (c :: '/' :: id) = none := by
      rw [lastMatch_cons_none h3]
      cases id with
      | nil =>
          simp [markerHere, isYoutuDotBe, isVSlash, isUSlash, isEmbedSlash, isWatchV, isAmpV, hcv']
      | cons a tl =>
          cases tl with
          | nil =>
              simp [markerHere, isYoutuDotBe, isVSlash, isUSlash, isEmbedSlash, isWatchV, isAmpV,
                hcv']
          | cons b tl2 =>
              have hb : (b == '/') = false := by
                simpa using (plain_to_ne hid b (by simp)).1
              simp [markerHere, isYoutuDotBe, isVSlash, isUSlash, isEmbedSlash, isWatchV, isAmpV,
                hcv', hb]
    have h1 : lastMatch ('/' :: c :: '/' :: id) = none := by
      rw [lastMatch_cons_none h2]
      simp [markerHere, isYoutuDotBe, isVSlash, isUSlash, isEmbedSlash, isWatchV, isAmpV]
    rw [lastMatch_cons_none h1]
    simp [markerHere, isYoutuDotBe, isVSlash, isUSlash, isEmbedSlash, isWatchV, isAmpV, hw,
      tokenRun_all hid]

lemma length_modifyAt {α : Type} (f : α → α) (j : Nat) (l : List α) :
    (modifyAt f j l).length = l.length := by
  induction l generalizing j with
  | nil => cases j <;> rfl
  | cons x xs ih => cases j with
    | zero => simp [modifyAt]
    | succ n => simp [modifyAt, ih]

lemma getElem?_modifyAt {α : Type} (f : α → α) (j k : Nat) (l : List α) :
    (modifyAt f j l)[k]? = if j = k then Option.map f l[k]? else l[k]? := by
  induction l generalizing j k with
  | nil => simp [modifyAt]
  | cons x xs ih =>
      cases j with
      | zero => cases k with
        | zero => simp [modifyAt]
        | succ m => simp [modifyAt]
      | succ n => cases k with
        | zero => simp [modifyAt]
        | succ m => simpa [modifyAt] using ih n m

lemma mem_modifyAt {α : Type} {o : α} {f : α → α} {j : Nat} {l : List α}
    (h : o ∈ modifyAt f j l) : o ∈ l ∨ ∃ x ∈ l, o = f x := by
  induction l generalizing j with
  | nil => simp [modifyAt] at h
  | cons x xs ih =>
      cases j with
      | zero =>
          rcases (by simpa [modifyAt] using h : o = f x ∨ o ∈ xs) with h' | h'
          · exact Or.inr ⟨x, by simp, h'⟩
          · exact Or.inl (by simp [h'])
      | succ n =>
          rcases (by simpa [modifyAt] using h : o = x ∨ o ∈ modifyAt f n xs) with h' | h'
          · exact Or.inl (by simp [h'])
          · rcases ih h' with h'' | ⟨y, hy, ho⟩
            · exact Or.inl (by simp [h''])
            · exact Or.inr ⟨y, by simp [hy], ho⟩

lemma countP_modifyAt_hit {α : Type} (p : α → Bool) (f : α → α) (l : List α) (j : Nat) (x : α)
    (hall : ∀ o ∈ l, p o = false) (hx : l[j]? = some x) (hf : p (f x) = true) :
    (modifyAt f j l).countP p = 1 := by
  induction l generalizing j with
  | nil => simp at hx
  | cons y ys ih =>
      cases j with
      | zero =>
          have hxy : y = x := by simpa using hx
          subst hxy
          have : ys.countP p = 0 := List.countP_eq_zero.mpr
            (fun o ho => by simp [hall o (by simp [ho])])
          simp [modifyAt, List.countP_cons, hf, this]
      | succ n =>
          have h1 := hall y (by simp)
          have := ih n (fun o ho => hall o (by simp [ho])) (by simpa using hx)
          simp [modifyAt, List.countP_cons, h1, this]

lemma countP_modifyAt_miss {α : Type} (p : α → Bool) (f : α → α) (l : List α) (j : Nat)
    (hall : ∀ o ∈ l, p o = false) (hf : ∀ o, p o = false → p (f o) = false) :
    (modifyAt f j l).countP p = 0 := by
  refine List.countP_eq_zero.mpr (fun o ho => ?_)
  rcases mem_modifyAt ho with h | ⟨x, hx, rfl⟩
  · simp [hall o h]
  · simp [hf x (hall x hx)]

lemma countP_selinc_markFirstCorrect (ans : String) (l : List RenderedOption) :
    (markFirstCorrect ans l).countP (fun o => o.selected && o.markedIncorrect) =
      l.countP (fun o => o.selected && o.markedIncorrect) := by
  induction l with
  | nil => rfl
  | cons o tl ih =>
      by_cases h : o.text = ans
      · simp [markFirstCorrect, h, List.countP_cons]
      · simp [markFirstCorrect, h, List.countP_cons, ih]

lemma countP_mc_markFirstCorrect (ans : String) (l : List RenderedOption)
    (hall : ∀ o ∈ l, o.markedCorrect = false) :
    (markFirstCorrect ans l).countP (fun o => o.markedCorrect) =
      if l.any (fun o => o.text == ans) then 1 else 0 := by
  induction l with
  | nil => simp [markFirstCorrect]
  | cons o tl ih =>
      by_cases h : o.text = ans
      · have htl : tl.countP (fun o => o.markedCorrect) = 0 :=
          List.countP_eq_zero.mpr (fun x hx => by simp [hall x (by simp [hx])])
        simp [markFirstCorrect, h, List.countP_cons, htl]
      · have ho := hall o (by simp)
        have := ih (fun x hx => hall x (by simp [hx]))
        simp [markFirstCorrect, h, List.countP_cons, ho, this]

lemma countP_mcans_markFirstCorrect (ans : String) (l : List RenderedOption)
    (hall : ∀ o ∈ l, o.markedCorrect = false) :
    (markFirstCorrect ans l).countP (fun o => o.markedCorrect && o.text == ans) =
      if l.any (fun o => o.text == ans) then 1 else 0 := by
  induction l with
  | nil => simp [markFirstCorrect]
  | cons o tl ih =>
      by_cases h : o.text = ans
      · have htl : tl.countP (fun o => o.markedCorrect && o.text == ans) = 0 :=
          List.countP_eq_zero.mpr (fun x hx => by simp [hall x (by simp [hx])])
        simp [markFirstCorrect, h, List.countP_cons, htl]
      · have ho := hall o (by simp)
        have := ih (fun x hx => hall x (by simp [hx]))
        simp [markFirstCorrect, h, List.countP_cons, ho, this]

lemma countP_modifyAt_miss2 {α : Type} (p : α → Bool) (f : α → α) (l : List α) (j : Nat)
    (hall : ∀ o ∈ l, p o = false) (hf : ∀ o ∈ l, p (f o) = false) :
    (modifyAt f j l).countP p = 0 := by
  refine List.countP_eq_zero.mpr (fun o ho => ?_)
  rcases mem_modifyAt ho with h | ⟨x, hx, rfl⟩
  · simp [hall o h]
  · simp [hf x hx]

lemma deselect_renderOption :
    ((fun o => { o with selected := false }) ∘ renderOption) = renderOption := rfl

lemma modifyAt_modifyAt {α : Type} (f g : α → α) (j : Nat) (l : List α) :
    modifyAt f j (modifyAt g j l) = modifyAt (fun x => f (g x)) j l := by
  induction l generalizing j with
  | nil => cases j <;> rfl
  | cons x xs ih => cases j with
    | zero => rfl
    | succ n => simp [modifyAt, ih]

lemma countP_disable (p : RenderedOption → Bool) (l : List RenderedOption)
    (hp : ∀ o, p { o with disabled := true } = p o) :
    (l.map fun o => { o with disabled := true }).countP p = l.countP p := by
  induction l with
  | nil => rfl
  | cons o tl ih => simp [List.countP_cons, hp o, ih]

lemma any_text_modifyAt (a : String) (f : RenderedOption → RenderedOption) (j : Nat)
    (l : List RenderedOption) (hf : ∀ o, (f o).text = o.text) :
    (modifyAt f j l).any (fun o => o.text == a) = l.any (fun o => o.text == a) := by
  induction l generalizing j with
  | nil => cases j <;> rfl
  | cons x xs ih => cases j with
    | zero => simp [modifyAt, hf x]
    | succ n => simp [modifyAt, ih]

lemma fresh_flags {texts : List String} : ∀ o ∈ texts.map renderOption,
    o.selected = false ∧ o.markedCorrect = false ∧ o.markedIncorrect = false := by
  intro o ho
  rcases List.mem_map.mp ho with ⟨t, -, rfl⟩
  simp [renderOption]

lemma checkAnswer_fresh_correct (texts : List String) (j : Nat) (tj : String)
    (hj : texts[j]? = some tj) :
    (checkAnswer (texts.map renderOption) j tj tj).2 = true ∧
    (checkAnswer (texts.map renderOption) j tj tj).1.countP (fun o => o.markedCorrect) = 1 ∧
    (checkAnswer (texts.map renderOption) j tj tj).1.countP
      (fun o => o.markedCorrect && o.text == tj) = 1 ∧
    (checkAnswer (texts.map renderOption) j tj tj).1.countP
      (fun o => o.selected && o.markedIncorrect) = 0 := by
  have hres : checkAnswer (texts.map renderOption) j tj tj =
      ((modifyAt (fun o => { o with markedCorrect := true, selected := true }) j
          (texts.map renderOption)).map fun o => { o with disabled := true }, true) := by
    simp [checkAnswer, deselect_renderOption, modifyAt_modifyAt]
  have hx : (texts.map renderOption)[j]? = some (renderOption tj) := by
    simp [hj]
  refine ⟨by simp [hres], ?_, ?_, ?_⟩
  · rw [hres]
    rw [countP_disable (fun o => o.markedCorrect) _ (fun o => rfl)]
    exact countP_modifyAt_hit _ _ _ _ _ (fun o ho => by simp [(fresh_flags o ho).2.1]) hx rfl
  · rw [hres]
    rw [countP_disable (fun o => o.markedCorrect && o.text == tj) _ (fun o => rfl)]
    refine countP_modifyAt_hit _ _ _ _ _ (fun o ho => by simp [(fresh_flags o ho).2.1]) hx ?_
    simp [renderOption]
  · rw [hres]
    rw [countP_disable (fun o => o.selected && o.markedIncorrect) _ (fun o => rfl)]
    refine countP_modifyAt_miss2 _ _ _ _ (fun o ho => by simp [(fresh_flags o ho).1]) ?_
    intro o ho
    simp [(fresh_flags o ho).2.2]

lemma any_text_map_renderOption (a : String) (texts : List String) :
    (texts.map renderOption).any (fun o => o.text == a) = texts.any (fun t => t == a) := by
  induction texts with
  | nil => rfl
  | cons t ts ih => simp [renderOption, ih]

lemma checkAnswer_fresh_incorrect (texts : List String) (j : Nat) (tj ans : String)
    (hj : texts[j]? = some tj) (hne : tj ≠ ans) :
    (checkAnswer (texts.map renderOption) j tj ans).2 = false ∧
    (checkAnswer (texts.map renderOption) j tj ans).1.countP (fun o => o.markedCorrect) =
      (if texts.any (fun t => t == ans) then 1 else 0) ∧
    (checkAnswer (texts.map renderOption) j tj ans).1.countP
      (fun o => o.markedCorrect && o.text == ans) =
      (if texts.any (fun t => t == ans) then 1 else 0) ∧
    (checkAnswer (texts.map renderOption) j tj ans).1.countP
      (fun o => o.selected && o.markedIncorrect) = 1 := by
  have hres : checkAnswer (texts.map renderOption) j tj ans =
      ((markFirstCorrect ans
          (modifyAt (fun o => { o with markedIncorrect := true, selected := true }) j
            (texts.map renderOption))).map fun o => { o with disabled := true }, false) := by
    simp [checkAnswer, deselect_renderOption, modifyAt_modifyAt, hne]
  have hx : (texts.map renderOption)[j]? = some (renderOption tj) := by
    simp [hj]
  have hmcfalse : ∀ o ∈ modifyAt (fun o => { o with markedIncorrect := true, selected := true }) j
      (texts.map renderOption), o.markedCorrect = false := by
    intro o ho
    rcases mem_modifyAt ho with h | ⟨x, hx2, rfl⟩
    · exact (fresh_flags o h).2.1
    · simpa using (fresh_flags x hx2).2.1
  have hany : (modifyAt (fun o => { o with markedIncorrect := true, selected := true }) j
        (texts.map renderOption)).any (fun o => o.text == ans) =
      texts.any (fun t => t == ans) := by
    rw [any_text_modifyAt ans (fun o => { o with markedIncorrect := true, selected := true }) j
      (texts.map renderOption) (fun o => rfl)]
    exact any_text_map_renderOption ans texts
  refine ⟨by simp [hres], ?_, ?_, ?_⟩
  · rw [hres]
    rw [countP_disable (fun o => o.markedCorrect) _ (fun o => rfl)]
    rw [countP_mc_markFirstCorrect _ _ hmcfalse, hany]
  · rw [hres]
    rw [countP_disable (fun o => o.markedCorrect && o.text == ans) _ (fun o => rfl)]
    rw [countP_mcans_markFirstCorrect _ _ hmcfalse, hany]
  · rw [hres]
    rw [countP_disable (fun o => o.selected && o.markedIncorrect) _ (fun o => rfl)]
    rw [countP_selinc_markFirstCorrect]
    exact countP_modifyAt_hit _ _ _ _ _ (fun o ho => by simp [(fresh_flags o ho).1]) hx rfl

lemma clickOption_unanswered (s : AppState) (i j : Nat) (rq : RenderedQuestion)
    (opt : RenderedOption) (hi : s.questionsList[i]? = some rq) (ha : rq.answered = false)
    (hopt : rq.options[j]? = some opt) :
    (clickOption i j s).questionsList[i]? =
        some { answer := rq.answer, options := (checkAnswer rq.options j opt.text rq.answer).1,
               answered := true } ∧
    (clickOption i j s).answeredQuestions = s.answeredQuestions + 1 ∧
    (clickOption i j s).correctAnswers =
      (if (checkAnswer rq.options j opt.text rq.answer).2 then s.correctAnswers + 1
       else s.correctAnswers) ∧
    (clickOption i j s).totalQuestions = s.totalQuestions := by
  by_cases hc : s.answeredQuestions + 1 = s.totalQuestions <;>
    simp [clickOption, hi, ha, hopt, displayResults, hc, getElem?_modifyAt]

lemma renderQuestion_answer (q : QuizQuestion) : (renderQuestion q).answer = q.answer := rfl

lemma renderQuestion_options (q : QuizQuestion) :
    (renderQuestion q).options = q.options.map renderOption := rfl

lemma renderOption_text (t : String) : (renderOption t).text = t := rfl

lemma joinSep_chunk (sep : List Char) (ts : List (List Char)) (t : List Char) (ht : t ∈ ts) :
    ∃ a b, joinSep sep ts = a ++ t ++ b := by
  induction ts with
  | nil => simp at ht
  | cons x xs ih =>
      rcases List.mem_cons.mp ht with rfl | hmem
      · cases xs with
        | nil => exact ⟨[], [], by simp [joinSep]⟩
        | cons y ys => exact ⟨[], sep ++ joinSep sep (y :: ys), by simp [joinSep]⟩
      · cases xs with
        | nil => simp at hmem
        | cons y ys =>
            obtain ⟨a, b, hab⟩ := ih hmem
            exact ⟨x ++ sep ++ a, b, by simp [joinSep, hab]⟩

lemma genPrompt_contains_question (transcript : String) (l : List QuizQuestion)
    (q : QuizQuestion) (hq : q ∈ l) :
    ∃ a b, genPrompt transcript l = a ++ q.question.toList ++ b := by
  obtain ⟨a, b, hab⟩ :=
    joinSep_chunk ("\n - ".toList) (l.map fun q => q.question.toList) q.question.toList
      (List.mem_map_of_mem _ hq)
  have hlen : l.length > 0 := by
    cases l with
    | nil => simp at hq
    | cons x xs => simp
  refine ⟨promptIntro.toList ++ promptAvoid.toList ++ a,
    b ++ promptTranscript.toList ++ transcript.toList, ?_⟩
  simp at hab
  simp [genPrompt, hlen, hab]

lemma countP_eraseIdx_le {α : Type} (p : α → Bool) (l : List α) (k : Nat) :
    (l.eraseIdx k).countP p ≤ l.countP p := by
  induction l generalizing k with
  | nil => simp
  | cons x xs ih =>
      cases k with
      | zero => simp [List.eraseIdx, List.countP_cons]
      | succ n =>
          simp only [List.eraseIdx, List.countP_cons]
          exact Nat.add_le_add_right (ih n) _

lemma countP_eraseIdx_getElem {α : Type} (p : α → Bool) (l : List α) (k : Nat) (x : α)
    (hx : l[k]? = some x) :
    (l.eraseIdx k).countP p + (if p x then 1 else 0) = l.countP p := by
  induction l generalizing k with
  | nil => simp at hx
  | cons y ys ih =>
      cases k with
      | zero =>
          have : y = x := by simpa using hx
          subst this
          simp [List.eraseIdx, List.countP_cons]
      | succ n =>
          have := ih n (by simpa using hx)
          simp only [List.eraseIdx, List.countP_cons]
          omega

lemma controlInv_of_fields {s s' : AppState}
    (h1 : s'.pending = s.pending)
    (h2 : s'.generateBtnDisabled = s.generateBtnDisabled)
    (h3 : s'.retakeBtnDisabled = s.retakeBtnDisabled)
    (h4 : s'.restartBtnDisabled = s.restartBtnDisabled)
    (h : ControlInv s) : ControlInv s' := by
  rw [ControlInv, h1, h2, h3, h4]
  exact h

lemma clickOption_control_frame (i j : Nat) (s : AppState) :
    (clickOption i j s).pending = s.pending ∧
    (clickOption i j s).generateBtnDisabled = s.generateBtnDisabled ∧
    (clickOption i j s).retakeBtnDisabled = s.retakeBtnDisabled ∧
    (clickOption i j s).restartBtnDisabled = s.restartBtnDisabled := by
  rcases hi : s.questionsList[i]? with _ | rq
  · simp [clickOption, hi]
  · rcases hj : rq.options[j]? with _ | opt
    · simp [clickOption, hi, hj]
    · by_cases ha : rq.answered
      · simp [clickOption, hi, hj, ha]
      · by_cases hc : s.answeredQuestions + 1 = s.totalQuestions <;>
          simp [clickOption, hi, hj, ha, hc, displayResults]

lemma countP_single_sub_ret (t v : String) :
    List.countP isRetakeCall [PendingCall.submitCall t v] = 0 := rfl

lemma countP_single_sub_sub (t v : String) :
    List.countP isSubmitCall [PendingCall.submitCall t v] = 1 := rfl

lemma countP_single_ret_ret : List.countP isRetakeCall [PendingCall.retakeCall] = 1 := rfl

lemma countP_single_ret_sub : List.countP isSubmitCall [PendingCall.retakeCall] = 0 := rfl

lemma submitStart_effects (s : AppState) (vid : String)
    (hb : s.generateBtnDisabled = false)
    (hurl : getYouTubeID (trimStr s.urlInput) = some vid)
    (hval : ¬(trimStr s.transcriptInput = "" ∨ (trimStr s.transcriptInput).length < 100)) :
    (submitStart s).pending =
      s.pending ++ [.submitCall (trimStr s.transcriptInput) vid] ∧
    (submitStart s).generateBtnDisabled = true ∧
    (submitStart s).retakeBtnDisabled = s.retakeBtnDisabled ∧
    (submitStart s).restartBtnDisabled = s.restartBtnDisabled := by
  refine ⟨?_, ?_, ?_, ?_⟩ <;>
    simp [submitStart, hb, hurl, hval, setLoading, clearOutput, generateQuizStart]

lemma submitStart_noop_effects (s : AppState) :
    (s.generateBtnDisabled = false →
      getYouTubeID (trimStr s.urlInput) = none ∨
        (trimStr s.transcriptInput = "" ∨ (trimStr s.transcriptInput).length < 100)) →
    (submitStart s).pending = s.pending ∧
    (submitStart s).generateBtnDisabled = s.generateBtnDisabled ∧
    (submitStart s).retakeBtnDisabled = s.retakeBtnDisabled ∧
    (submitStart s).restartBtnDisabled = s.restartBtnDisabled := by
  intro hcase
  by_cases hb : s.generateBtnDisabled = true
  · refine ⟨?_, ?_, ?_, ?_⟩ <;> simp [submitStart, hb]
  · have hb' : s.generateBtnDisabled = false := by simpa using hb
    rcases hcase hb' with hurl | hval
    · refine ⟨?_, ?_, ?_, ?_⟩ <;> simp [submitStart, hb', hurl]
    · rcases hurl : getYouTubeID (trimStr s.urlInput) with _ | vid
      · refine ⟨?_, ?_, ?_, ?_⟩ <;> simp [submitStart, hb', hurl]
      · refine ⟨?_, ?_, ?_, ?_⟩ <;> simp [submitStart, hb', hurl, hval]

lemma retakeStart_effects (s : AppState) (t v : String)
    (hb : s.retakeBtnDisabled = false)
    (hct : s.currentTranscript = some t) (hcv : s.currentVideoId = some v)
    (hemp : ¬(t = "" ∨ v = "")) :
    (retakeStart s).pending = s.pending ++ [.retakeCall] ∧
    (retakeStart s).generateBtnDisabled = s.generateBtnDisabled ∧
    (retakeStart s).retakeBtnDisabled = true ∧
    (retakeStart s).restartBtnDisabled = true := by
  refine ⟨?_, ?_, ?_, ?_⟩ <;>
    simp [retakeStart, hb, hct, hcv, hemp, generateQuizStart, clearOutput]

lemma retakeStart_noop (s : AppState)
    (hcase : s.retakeBtnDisabled = true ∨ s.currentTranscript = none ∨
      s.currentVideoId = none ∨ (∃ t v, s.currentTranscript = some t ∧
        s.currentVideoId = some v ∧ (t = "" ∨ v = ""))) :
    retakeStart s = s := by
  rcases hcase with hb | hct | hcv | ⟨t, v, hct, hcv, hemp⟩
  · simp [retakeStart, hb]
  · by_cases hb : s.retakeBtnDisabled = true
    · simp [retakeStart, hb]
    · have hb' : s.retakeBtnDisabled = false := by simpa using hb
      simp [retakeStart, hb', hct]
  · by_cases hb : s.retakeBtnDisabled = true
    · simp [retakeStart, hb]
    · have hb' : s.retakeBtnDisabled = false := by simpa using hb
      rcases hct : s.currentTranscript with _ | t <;> simp [retakeStart, hb', hct, hcv]
  · by_cases hb : s.retakeBtnDisabled = true
    · simp [retakeStart, hb]
    · have hb' : s.retakeBtnDisabled = false := by simpa using hb
      simp [retakeStart, hb', hct, hcv, hemp]

lemma completeAt_submit_effects (k : Nat) (outcome : GenResult) (s : AppState) (t v : String)
    (hk : s.pending[k]? = some (.submitCall t v)) :
    (completeAt k outcome s).pending = s.pending.eraseIdx k ∧
    (completeAt k outcome s).generateBtnDisabled = false ∧
    (completeAt k outcome s).retakeBtnDisabled = s.retakeBtnDisabled ∧
    (completeAt k outcome s).restartBtnDisabled = s.restartBtnDisabled := by
  cases outcome with
  | ok qs =>
      by_cases hq : qs.length = 0 <;>
        refine ⟨?_, ?_, ?_, ?_⟩ <;>
          simp [completeAt, hk, generateQuizFinish, renderQuestions, displayError, clearOutput,
            finishSubmit, setLoading, hq]
  | err msg =>
      refine ⟨?_, ?_, ?_, ?_⟩ <;>
        simp [completeAt, hk, generateQuizFinish, displayError, clearOutput, finishSubmit,
          setLoading]

lemma completeAt_retake_effects (k : Nat) (outcome : GenResult) (s : AppState)
    (hk : s.pending[k]? = some .retakeCall) :
    (completeAt k outcome s).pending = s.pending.eraseIdx k ∧
    (completeAt k outcome s).generateBtnDisabled = s.generateBtnDisabled ∧
    (completeAt k outcome s).retakeBtnDisabled = false ∧
    (completeAt k outcome s).restartBtnDisabled = false := by
  cases outcome with
  | ok qs =>
      by_cases hq : qs.length = 0 <;>
        refine ⟨?_, ?_, ?_, ?_⟩ <;>
          simp [completeAt, hk, generateQuizFinish, renderQuestions, displayError, clearOutput,
            finishRetake, hq]
  | err msg =>
      refine ⟨?_, ?_, ?_, ?_⟩ <;>
        simp [completeAt, hk, generateQuizFinish, displayError, clearOutput, finishRetake]

lemma restartClick_control_frame (s : AppState) :
    (restartClick s).pending = s.pending ∧
    (restartClick s).generateBtnDisabled = s.generateBtnDisabled ∧
    (restartClick s).retakeBtnDisabled = s.retakeBtnDisabled ∧
    (restartClick s).restartBtnDisabled = s.restartBtnDisabled := by
  by_cases hb : s.restartBtnDisabled = true
  · refine ⟨?_, ?_, ?_, ?_⟩ <;> simp [restartClick, hb, clearOutput]
  · have hb' : s.restartBtnDisabled = false := by simpa using hb
    refine ⟨?_, ?_, ?_, ?_⟩ <;> simp [restartClick, hb', clearOutput]

lemma step_controlInv (e : Event) (s : AppState) (h : ControlInv s) : ControlInv (step e s) := by
  obtain ⟨hg, hr, hcs, hcr, hrs⟩ := h
  cases e with
  | setInputs url transcript => exact ⟨hg, hr, hcs, hcr, hrs⟩
  | submit =>
      show ControlInv (submitStart s)
      by_cases hb : s.generateBtnDisabled = true
      · obtain ⟨h1, h2, h3, h4⟩ := submitStart_noop_effects s (fun hf => absurd hf (by simp [hb]))
        exact controlInv_of_fields h1 h2 h3 h4 ⟨hg, hr, hcs, hcr, hrs⟩
      · have hb' : s.generateBtnDisabled = false := by simpa using hb
        rcases hurl : getYouTubeID (trimStr s.urlInput) with _ | vid
        · obtain ⟨h1, h2, h3, h4⟩ := submitStart_noop_effects s (fun _ => Or.inl hurl)
          exact controlInv_of_fields h1 h2 h3 h4 ⟨hg, hr, hcs, hcr, hrs⟩
        · by_cases hval : trimStr s.transcriptInput = "" ∨ (trimStr s.transcriptInput).length < 100
          · obtain ⟨h1, h2, h3, h4⟩ := submitStart_noop_effects s (fun _ => Or.inr hval)
            exact controlInv_of_fields h1 h2 h3 h4 ⟨hg, hr, hcs, hcr, hrs⟩
          · obtain ⟨h1, h2, h3, h4⟩ := submitStart_effects s vid hb' hurl hval
            have hcs0 := hg hb'
            refine ⟨?_, ?_, ?_, ?_, ?_⟩
            · rw [h2]
              intro hf
              exact absurd hf (by simp)
            · rw [h3, h1]
              intro hf
              rw [List.countP_append, hr hf, countP_single_sub_ret]
            · rw [h1, List.countP_append, hcs0, countP_single_sub_sub]
            · rw [h1, List.countP_append, countP_single_sub_ret]
              omega
            · rw [h4, h1]
              intro hf
              rw [List.countP_append, hrs hf, countP_single_sub_ret]
  | retake =>
      show ControlInv (retakeStart s)
      by_cases hb : s.retakeBtnDisabled = true
      · rw [retakeStart_noop s (Or.inl hb)]
        exact ⟨hg, hr, hcs, hcr, hrs⟩
      · have hb' : s.retakeBtnDisabled = false := by simpa using hb
        rcases hct : s.currentTranscript with _ | t
        · rw [retakeStart_noop s (Or.inr (Or.inl hct))]
          exact ⟨hg, hr, hcs, hcr, hrs⟩
        · rcases hcv : s.currentVideoId with _ | v
          · rw [retakeStart_noop s (Or.inr (Or.inr (Or.inl hcv)))]
            exact ⟨hg, hr, hcs, hcr, hrs⟩
          · by_cases hemp : t = "" ∨ v = ""
            · rw [retakeStart_noop s (Or.inr (Or.inr (Or.inr ⟨t, v, hct, hcv, hemp⟩)))]
              exact ⟨hg, hr, hcs, hcr, hrs⟩
            · obtain ⟨h1, h2, h3, h4⟩ := retakeStart_effects s t v hb' hct hcv hemp
              have hcr0 := hr hb'
              refine ⟨?_, ?_, ?_, ?_, ?_⟩
              · rw [h2, h1]
                intro hf
                rw [List.countP_append, hg hf, countP_single_ret_sub]
              · rw [h3]
                intro hf
                exact absurd hf (by simp)
              · rw [h1, List.countP_append, countP_single_ret_sub]
                omega
              · rw [h1, List.countP_append, hcr0, countP_single_ret_ret]
              · rw [h4]
                intro hf
                exact absurd hf (by simp)
  | restart =>
      obtain ⟨h1, h2, h3, h4⟩ := restartClick_control_frame s
      exact controlInv_of_fields h1 h2 h3 h4 ⟨hg, hr, hcs, hcr, hrs⟩
  | complete k outcome =>
      show ControlInv (completeAt k outcome s)
      rcases hk : s.pending[k]? with _ | pc
      · simp only [completeAt, hk]
        exact ⟨hg, hr, hcs, hcr, hrs⟩
      · have hles := countP_eraseIdx_le isSubmitCall s.pending k
        have hler := countP_eraseIdx_le isRetakeCall s.pending k
        cases pc with
        | submitCall t v =>
            obtain ⟨h1, h2, h3, h4⟩ := completeAt_submit_effects k outcome s t v hk
            have hsub := countP_eraseIdx_getElem isSubmitCall s.pending k _ hk
            rw [show isSubmitCall (.submitCall t v) = true from rfl] at hsub
            refine ⟨?_, ?_, ?_, ?_, ?_⟩
            · rw [h2, h1]
              intro hf
              simp at hsub
              omega
            · rw [h3, h1]
              intro hf
              have := hr hf
              omega
            · rw [h1]
              omega
            · rw [h1]
              omega
            · rw [h4, h1]
              intro hf
              have := hrs hf
              omega
        | retakeCall =>
            obtain ⟨h1, h2, h3, h4⟩ := completeAt_retake_effects k outcome s hk
            have hret := countP_eraseIdx_getElem isRetakeCall s.pending k _ hk
            rw [show isRetakeCall .retakeCall = true from rfl] at hret
            refine ⟨?_, ?_, ?_, ?_, ?_⟩
            · rw [h2, h1]
              intro hf
              have := hg hf
              omega
            · rw [h3, h1]
              intro hf
              simp at hret
              omega
            · rw [h1]
              omega
            · rw [h1]
              omega
            · rw [h4, h1]
              intro hf
              simp at hret
              omega
  | click i j =>
      have hf := clickOption_control_frame i j s
      exact controlInv_of_fields hf.1 hf.2.1 hf.2.2.1 hf.2.2.2 ⟨hg, hr, hcs, hcr, hrs⟩

lemma run_controlInv (evs : List Event) (s : AppState) (h : ControlInv s) :
    ControlInv (run evs s) := by
  induction evs generalizing s with
  | nil => exact h
  | cons e evs ih => exact ih (step e s) (step_controlInv e s h)

lemma length_eq_counts (l : List PendingCall) :
    l.length = l.countP isSubmitCall + l.countP isRetakeCall := by
  induction l with
  | nil => rfl
  | cons p ps ih =>
      cases p <;> simp [List.countP_cons, isSubmitCall, isRetakeCall, ih] <;> omega

lemma countUnanswered_fresh (qs : List QuizQuestion) :
    countUnanswered (qs.map renderQuestion) = qs.length := by
  induction qs with
  | nil => rfl
  | cons q tl ih => simp [countUnanswered, List.countP_cons, renderQuestion] at ih ⊢

lemma countP_modifyAt_getElem {α : Type} (p : α → Bool) (f : α → α) (l : List α) (i : Nat)
    (x : α) (hx : l[i]? = some x) :
    (modifyAt f i l).countP p + (if p x then 1 else 0) =
      l.countP p + (if p (f x) then 1 else 0) := by
  induction l generalizing i with
  | nil => simp at hx
  | cons y ys ih =>
      cases i with
      | zero =>
          have hyx : y = x := by simpa using hx
          subst hyx
          simp [modifyAt, List.countP_cons]
          omega
      | succ n =>
          have := ih n (by simpa using hx)
          simp [modifyAt, List.countP_cons]
          omega

lemma singleton_of_getElem {α : Type} {l : List α} {k : Nat} {x : α}
    (hx : l[k]? = some x) (hl : l.length ≤ 1) : l = [x] ∧ k = 0 := by
  cases l with
  | nil => simp at hx
  | cons y ys =>
      cases ys with
      | nil =>
          cases k with
          | zero =>
              have : y = x := by simpa using hx
              exact ⟨by rw [this], rfl⟩
          | succ n => simp at hx
      | cons z zs => simp at hl

lemma submitStart_score_effects (s : AppState) (vid : String)
    (hb : s.generateBtnDisabled = false)
    (hurl : getYouTubeID (trimStr s.urlInput) = some vid)
    (hval : ¬(trimStr s.transcriptInput = "" ∨ (trimStr s.transcriptInput).length < 100)) :
    (submitStart s).questionsList = [] ∧
    (submitStart s).answeredQuestions = s.answeredQuestions ∧
    (submitStart s).totalQuestions = s.totalQuestions := by
  refine ⟨?_, ?_, ?_⟩ <;>
    simp [submitStart, hb, hurl, hval, setLoading, clearOutput, generateQuizStart]

lemma submitStart_noop_score (s : AppState) :
    (s.generateBtnDisabled = false →
      getYouTubeID (trimStr s.urlInput) = none ∨
        (trimStr s.transcriptInput = "" ∨ (trimStr s.transcriptInput).length < 100)) →
    (submitStart s).questionsList = s.questionsList ∧
    (submitStart s).answeredQuestions = s.answeredQuestions ∧
    (submitStart s).totalQuestions = s.totalQuestions ∧
    (submitStart s).pending = s.pending := by
  intro hcase
  by_cases hb : s.generateBtnDisabled = true
  · refine ⟨?_, ?_, ?_, ?_⟩ <;> simp [submitStart, hb]
  · have hb' : s.generateBtnDisabled = false := by simpa using hb
    rcases hcase hb' with hurl | hval
    · refine ⟨?_, ?_, ?_, ?_⟩ <;> simp [submitStart, hb', hurl]
    · rcases hurl : getYouTubeID (trimStr s.urlInput) with _ | vid
      · refine ⟨?_, ?_, ?_, ?_⟩ <;> simp [submitStart, hb', hurl]
      · refine ⟨?_, ?_, ?_, ?_⟩ <;> simp [submitStart, hb', hurl, hval]

lemma retakeStart_score_effects (s : AppState) (t v : String)
    (hb : s.retakeBtnDisabled = false)
    (hct : s.currentTranscript = some t) (hcv : s.currentVideoId = some v)
    (hemp : ¬(t = "" ∨ v = "")) :
    (retakeStart s).questionsList = [] ∧
    (retakeStart s).answeredQuestions = s.answeredQuestions ∧
    (retakeStart s).totalQuestions = s.totalQuestions := by
  refine ⟨?_, ?_, ?_⟩ <;>
    simp [retakeStart, hb, hct, hcv, hemp, generateQuizStart, clearOutput]

lemma restartClick_score (s : AppState) :
    ((restartClick s).questionsList = [] ∨ (restartClick s).questionsList = s.questionsList) ∧
    (restartClick s).answeredQuestions = s.answeredQuestions ∧
    (restartClick s).totalQuestions = s.totalQuestions ∧
    (restartClick s).pending = s.pending := by
  by_cases hb : s.restartBtnDisabled = true
  · refine ⟨Or.inr ?_, ?_, ?_, ?_⟩ <;> simp [restartClick, hb]
  · have hb' : s.restartBtnDisabled = false := by simpa using hb
    refine ⟨Or.inl ?_, ?_, ?_, ?_⟩ <;> simp [restartClick, hb', clearOutput]

lemma completeAt_err_score (k : Nat) (s : AppState) (pc : PendingCall) (msg : String)
    (hk : s.pending[k]? = some pc) :
    (completeAt k (.err msg) s).questionsList = [] ∧
    (completeAt k (.err msg) s).answeredQuestions = s.answeredQuestions ∧
    (completeAt k (.err msg) s).totalQuestions = s.totalQuestions ∧
    (completeAt k (.err msg) s).pending = s.pending.eraseIdx k := by
  cases pc <;>
    refine ⟨?_, ?_, ?_, ?_⟩ <;>
      simp [completeAt, hk, generateQuizFinish, displayError, clearOutput, finishSubmit,
        finishRetake, setLoading]

lemma completeAt_ok_empty_score (k : Nat) (s : AppState) (pc : PendingCall)
    (qs : List QuizQuestion) (hk : s.pending[k]? = some pc) (hq : qs.length = 0) :
    (completeAt k (.ok qs) s).questionsList = [] ∧
    (completeAt k (.ok qs) s).answeredQuestions = s.answeredQuestions ∧
    (completeAt k (.ok qs) s).totalQuestions = s.totalQuestions ∧
    (completeAt k (.ok qs) s).pending = s.pending.eraseIdx k := by
  cases pc <;>
    refine ⟨?_, ?_, ?_, ?_⟩ <;>
      simp [completeAt, hk, generateQuizFinish, renderQuestions, displayError, clearOutput,
        finishSubmit, finishRetake, setLoading, hq]

lemma completeAt_ok_score (k : Nat) (s : AppState) (pc : PendingCall)
    (qs : List QuizQuestion) (hk : s.pending[k]? = some pc) (hq : ¬ qs.length = 0) :
    (completeAt k (.ok qs) s).questionsList = s.questionsList ++ qs.map renderQuestion ∧
    (completeAt k (.ok qs) s).answeredQuestions = 0 ∧
    (completeAt k (.ok qs) s).totalQuestions = qs.length ∧
    (completeAt k (.ok qs) s).pending = s.pending.eraseIdx k := by
  cases pc <;>
    refine ⟨?_, ?_, ?_, ?_⟩ <;>
      simp [completeAt, hk, generateQuizFinish, renderQuestions, displayError, clearOutput,
        finishSubmit, finishRetake, setLoading, hq]

lemma clickOption_main_score (s : AppState) (i j : Nat) (rq : RenderedQuestion)
    (opt : RenderedOption) (hi : s.questionsList[i]? = some rq) (ha : rq.answered = false)
    (hj : rq.options[j]? = some opt) :
    (clickOption i j s).questionsList =
      modifyAt (fun _ =>
        { answer := rq.answer,
          options := (checkAnswer rq.options j opt.text rq.answer).1,
          answered := true }) i s.questionsList ∧
    (clickOption i j s).answeredQuestions = s.answeredQuestions + 1 ∧
    (clickOption i j s).totalQuestions = s.totalQuestions ∧
    (clickOption i j s).pending = s.pending := by
  by_cases hc : s.answeredQuestions + 1 = s.totalQuestions <;>
    refine ⟨?_, ?_, ?_, ?_⟩ <;> simp [clickOption, hi, ha, hj, displayResults, hc]

lemma step_scoreInv (e : Event) (s : AppState) (h : ScoreInv s)
    (hseq : isStartEv e = true → s.pending = []) : ScoreInv (step e s) := by
  obtain ⟨h1, h2, h3⟩ := h
  cases e with
  | setInputs url transcript => exact ⟨h1, h2, h3⟩
  | submit =>
      show ScoreInv (submitStart s)
      have hp0 : s.pending = [] := hseq rfl
      by_cases hb : s.generateBtnDisabled = true
      · obtain ⟨g1, g2, g3, g4⟩ := submitStart_noop_score s (fun hf => absurd hf (by simp [hb]))
        exact ⟨by rw [g1, g2, g3]; exact h1, by rw [g4, g1]; exact h2, by rw [g4]; exact h3⟩
      · have hb' : s.generateBtnDisabled = false := by simpa using hb
        rcases hurl : getYouTubeID (trimStr s.urlInput) with _ | vid
        · obtain ⟨g1, g2, g3, g4⟩ := submitStart_noop_score s (fun _ => Or.inl hurl)
          exact ⟨by rw [g1, g2, g3]; exact h1, by rw [g4, g1]; exact h2, by rw [g4]; exact h3⟩
        · by_cases hval : trimStr s.transcriptInput = "" ∨
            (trimStr s.transcriptInput).length < 100
          · obtain ⟨g1, g2, g3, g4⟩ := submitStart_noop_score s (fun _ => Or.inr hval)
            exact ⟨by rw [g1, g2, g3]; exact h1, by rw [g4, g1]; exact h2, by rw [g4]; exact h3⟩
          · obtain ⟨g1, g2, g3⟩ := submitStart_score_effects s vid hb' hurl hval
            obtain ⟨f1, f2, f3, f4⟩ := submitStart_effects s vid hb' hurl hval
            refine ⟨?_, ?_, ?_⟩
            · rw [g1, g2, g3]
              have : countUnanswered [] = 0 := rfl
              rw [this]
              omega
            · intro hne
              exact g1
            · rw [f1, hp0]
              simp
  | retake =>
      show ScoreInv (retakeStart s)
      have hp0 : s.pending = [] := hseq rfl
      by_cases hb : s.retakeBtnDisabled = true
      · rw [retakeStart_noop s (Or.inl hb)]
        exact ⟨h1, h2, h3⟩
      · have hb' : s.retakeBtnDisabled = false := by simpa using hb
        rcases hct : s.currentTranscript with _ | t
        · rw [retakeStart_noop s (Or.inr (Or.inl hct))]
          exact ⟨h1, h2, h3⟩
        · rcases hcv : s.currentVideoId with _ | v
          · rw [retakeStart_noop s (Or.inr (Or.inr (Or.inl hcv)))]
            exact ⟨h1, h2, h3⟩
          · by_cases hemp : t = "" ∨ v = ""
            · rw [retakeStart_noop s (Or.inr (Or.inr (Or.inr ⟨t, v, hct, hcv, hemp⟩)))]
              exact ⟨h1, h2, h3⟩
            · obtain ⟨g1, g2, g3⟩ := retakeStart_score_effects s t v hb' hct hcv hemp
              obtain ⟨f1, f2, f3, f4⟩ := retakeStart_effects s t v hb' hct hcv hemp
              refine ⟨?_, ?_, ?_⟩
              · rw [g1, g2, g3]
                have : countUnanswered [] = 0 := rfl
                rw [this]
                omega
              · intro hne
                exact g1
              · rw [f1, hp0]
                simp
  | restart =>
      show ScoreInv (restartClick s)
      obtain ⟨g1, g2, g3, g4⟩ := restartClick_score s
      refine ⟨?_, ?_, ?_⟩
      · rcases g1 with g1 | g1 <;> rw [g1, g2, g3]
        · have : countUnanswered [] = 0 := rfl
          rw [this]
          omega
        · exact h1
      · intro hne
        rw [g4] at hne
        rcases g1 with g1 | g1
        · exact g1
        · rw [g1]
          exact h2 hne
      · rw [g4]
        exact h3
  | complete k outcome =>
      show ScoreInv (completeAt k outcome s)
      rcases hk : s.pending[k]? with _ | pc
      · simp only [completeAt, hk]
        exact ⟨h1, h2, h3⟩
      · obtain ⟨hsing, hk0⟩ := singleton_of_getElem hk h3
        have herase : s.pending.eraseIdx k = [] := by
          rw [hsing, hk0]
          rfl
        cases outcome with
        | ok qs =>
            by_cases hq : qs.length = 0
            · obtain ⟨g1, g2, g3, g4⟩ := completeAt_ok_empty_score k s pc qs hk hq
              refine ⟨?_, ?_, ?_⟩
              · rw [g1, g2, g3]
                have : countUnanswered [] = 0 := rfl
                rw [this]
                omega
              · intro hne
                exact g1
              · rw [g4, herase]
                simp
            · obtain ⟨g1, g2, g3, g4⟩ := completeAt_ok_score k s pc qs hk hq
              have hlist : s.questionsList = [] := h2 (by rw [hsing]; simp)
              refine ⟨?_, ?_, ?_⟩
              · rw [g1, g2, g3, hlist]
                simp only [List.nil_append]
                rw [countUnanswered_fresh]
                omega
              · intro hne
                rw [g4, herase] at hne
                exact absurd rfl hne
              · rw [g4, herase]
                simp
        | err msg =>
            obtain ⟨g1, g2, g3, g4⟩ := completeAt_err_score k s pc msg hk
            refine ⟨?_, ?_, ?_⟩
            · rw [g1, g2, g3]
              have : countUnanswered [] = 0 := rfl
              rw [this]
              omega
            · intro hne
              exact g1
            · rw [g4, herase]
              simp
  | click i j =>
      show ScoreInv (clickOption i j s)
      rcases hi : s.questionsList[i]? with _ | rq
      · simp only [clickOption, hi]
        exact ⟨h1, h2, h3⟩
      · rcases hj : rq.options[j]? with _ | opt
        · simp only [clickOption, hi, hj]
          exact ⟨h1, h2, h3⟩
        · by_cases ha : rq.answered = true
          · simp only [clickOption, hi, hj, ha, if_true]
            exact ⟨h1, h2, h3⟩
          · have ha' : rq.answered = false := by simpa using ha
            obtain ⟨g1, g2, g3, g4⟩ := clickOption_main_score s i j rq opt hi ha' hj
            have hcount := countP_modifyAt_getElem (fun r : RenderedQuestion => !r.answered)
              (fun _ =>
                ({ answer := rq.answer,
                   options := (checkAnswer rq.options j opt.text rq.answer).1,
                   answered := true } : RenderedQuestion)) s.questionsList i rq hi
            simp only [ha', Bool.not_false, Bool.not_true, if_true, if_false,
              Nat.add_zero] at hcount
            refine ⟨?_, ?_, ?_⟩
            · rw [g1, g2, g3]
              have hcu : countUnanswered (modifyAt (fun _ =>
                  { answer := rq.answer,
                    options := (checkAnswer rq.options j opt.text rq.answer).1,
                    answered := true }) i s.questionsList) + 1 =
                  countUnanswered s.questionsList := by
                simpa [countUnanswered] using hcount
              omega
            · intro hne
              rw [g4] at hne
              have := h2 hne
              rw [this] at hi
              simp at hi
            · rw [g4]
              exact h3

lemma run_scoreInv (evs : List Event) (s : AppState) (h : ScoreInv s)
    (hs : seqOK s evs = true) : ScoreInv (run evs s) := by
  induction evs generalizing s with
  | nil => exact h
  | cons e evs ih =>
      rw [seqOK, Bool.and_eq_true] at hs
      refine ih (step e s) (step_scoreInv e s h ?_) hs.2
      intro hst
      rcases Bool.or_eq_true _ _ |>.mp hs.1 with hb | hb
      · rw [hst] at hb
        simp at hb
      · exact List.isEmpty_iff.mp hb

/-! ## The claims -/

/-- C1: counterexample to the claim as stated — after a successful session, a
submit whose generation fails ends with `previousQuestions = []` and with
`currentTranscript` overwritten by the newly submitted transcript, not with
the values from before the failed operation: generation failure during submit
does modify transcript, identifier and history. -/
theorem submit_failure_overwrites_session_counterexample :
    (run [.submit, .complete 0 (.err "boom")]
        (run [.setInputs "https://youtu.be/dQw4w9WgXcQ" (String.mk (List.replicate 120 'a')),
              .submit,
              .complete 0 (.ok [{ question := "Q1", options := ["A", "B", "C", "D"],
                                  answer := "A" }]),
              .setInputs "https://youtu.be/dQw4w9WgXcQ" (String.mk (List.replicate 120 'b'))]
          initState)).previousQuestions ≠
      (run [.setInputs "https://youtu.be/dQw4w9WgXcQ" (String.mk (List.replicate 120 'a')),
            .submit,
            .complete 0 (.ok [{ question := "Q1", options := ["A", "B", "C", "D"],
                                answer := "A" }]),
            .setInputs "https://youtu.be/dQw4w9WgXcQ" (String.mk (List.replicate 120 'b'))]
        initState).previousQuestions ∧
    (run [.submit, .complete 0 (.err "boom")]
        (run [.setInputs "https://youtu.be/dQw4w9WgXcQ" (String.mk (List.replicate 120 'a')),
              .submit,
              .complete 0 (.ok [{ question := "Q1", options := ["A", "B", "C", "D"],
                                  answer := "A" }]),
              .setInputs "https://youtu.be/dQw4w9WgXcQ" (String.mk (List.replicate 120 'b'))]
          initState)).currentTranscript ≠
      (run [.setInputs "https://youtu.be/dQw4w9WgXcQ" (String.mk (List.replicate 120 'a')),
            .submit,
            .complete 0 (.ok [{ question := "Q1", options := ["A", "B", "C", "D"],
                                answer := "A" }]),
            .setInputs "https://youtu.be/dQw4w9WgXcQ" (String.mk (List.replicate 120 'b'))]
        initState).currentTranscript := by
  decide

/-- C1 (amended): a failed retake leaves `currentTranscript`, `currentVideoId`
and `previousQuestions` exactly as they were; a failed submit ends with
`previousQuestions = []` (the handler clears the history before the call) and
with `currentTranscript`/`currentVideoId` set to the newly submitted values
(the handler stores them after the await regardless of the outcome) — only
the history append of a successful generation is omitted. -/
theorem generation_failure_session_state :
    (∀ (s : AppState) (msg : String), s.pending = [] →
      (run [.retake, .complete 0 (.err msg)] s).currentTranscript = s.currentTranscript ∧
      (run [.retake, .complete 0 (.err msg)] s).currentVideoId = s.currentVideoId ∧
      (run [.retake, .complete 0 (.err msg)] s).previousQuestions = s.previousQuestions) ∧
    (∀ (s : AppState) (msg vid : String), s.pending = [] →
      s.generateBtnDisabled = false →
      getYouTubeID (trimStr s.urlInput) = some vid →
      ¬(trimStr s.transcriptInput = "" ∨ (trimStr s.transcriptInput).length < 100) →
      (run [.submit, .complete 0 (.err msg)] s).previousQuestions = [] ∧
      (run [.submit, .complete 0 (.err msg)] s).currentTranscript =
        some (trimStr s.transcriptInput) ∧
      (run [.submit, .complete 0 (.err msg)] s).currentVideoId = some vid) := by
  constructor
  · intro s msg hp
    by_cases hbtn : s.retakeBtnDisabled
    · simp [run, step, retakeStart, hbtn, completeAt, hp]
    · rcases hct : s.currentTranscript with _ | t
      · simp [run, step, retakeStart, hbtn, hct, completeAt, hp]
      · rcases hcv : s.currentVideoId with _ | v
        · simp [run, step, retakeStart, hbtn, hct, hcv, completeAt, hp]
        · by_cases hemp : t = "" ∨ v = ""
          · simp [run, step, retakeStart, hbtn, hct, hcv, hemp, completeAt, hp]
          · simp [run, step, retakeStart, hbtn, hct, hcv, hemp, generateQuizStart, clearOutput,
              completeAt, hp, generateQuizFinish, displayError, finishRetake]
  · intro s msg vid hp hbtn hurl hval
    have hval1 : ¬ trimStr s.transcriptInput = "" := fun h => hval (Or.inl h)
    have hval2 : ¬ (trimStr s.transcriptInput).length < 100 := fun h => hval (Or.inr h)
    refine ⟨?_, ?_, ?_⟩ <;>
      simp [run, step, submitStart, hbtn, hurl, hval1, hval2, setLoading, clearOutput,
        generateQuizStart, completeAt, hp, generateQuizFinish, displayError, finishSubmit]

/-- C1: witness — the amended theorem applied to the initial state (retake
part) and to a state holding valid inputs (submit part). -/
theorem generation_failure_session_state_witness :
    ((run [.retake, .complete 0 (.err "x")] initState).currentTranscript =
        initState.currentTranscript ∧
      (run [.retake, .complete 0 (.err "x")] initState).currentVideoId =
        initState.currentVideoId ∧
      (run [.retake, .complete 0 (.err "x")] initState).previousQuestions =
        initState.previousQuestions) ∧
    ((run [.submit, .complete 0 (.err "x")]
        { initState with urlInput := "https://youtu.be/dQw4w9WgXcQ",
                         transcriptInput := String.mk (List.replicate 120 'a') }).previousQuestions =
        [] ∧
      (run [.submit, .complete 0 (.err "x")]
        { initState with urlInput := "https://youtu.be/dQw4w9WgXcQ",
                         transcriptInput := String.mk (List.replicate 120 'a') }).currentTranscript =
        some (trimStr (String.mk (List.replicate 120 'a'))) ∧
      (run [.submit, .complete 0 (.err "x")]
        { initState with urlInput := "https://youtu.be/dQw4w9WgXcQ",
                         transcriptInput := String.mk (List.replicate 120 'a') }).currentVideoId =
        some "dQw4w9WgXcQ") :=
  ⟨generation_failure_session_state.1 initState "x" rfl,
   generation_failure_session_state.2 _ "x" "dQw4w9WgXcQ" rfl rfl (by decide) (by decide)⟩

/-- C2: counterexample to the claim as stated — the string "youtuXbe/abcdefghijk"
matches none of the six recognized URL forms (it does not even contain one of
the literal markers `youtu.be/`, `v/`, `u/<digit>/`, `embed/`, `watch?v=`,
`&v=` as a substring, as `specHasLiteralMarker` certifies), yet `getYouTubeID`
returns "abcdefghijk" instead of absent: the unescaped dot of `youtu.be` in the
regex lets any character stand in its place. -/
theorem getYouTubeID_wildcard_dot_counterexample :
    getYouTubeID "youtuXbe/abcdefghijk" = some "abcdefghijk" ∧
    specHasLiteralMarker "youtuXbe/abcdefghijk".toList = false := by decide

/-- C2 (amended): `getYouTubeID` returns the exact 11-character token on every
string `pre ++ marker ++ token` in which the marker is one of the six
alternatives as the regex actually matches them — `youtu⟨c⟩be/` with `c` any
non-line-terminator character in place of the unescaped dot, `v/`,
`u/⟨w⟩/` with `w` any word character, `embed/`, `watch?v=`, `&v=` — the
prefix contains no line terminator, and the token has exactly 11 characters
none of which is `/`, `=`, `#`, `&` or `?`.  The six literal recognized forms
are instances, but so are the relaxed variants, so the original claim's
"absent for every other string" does not hold. -/
theorem getYouTubeID_relaxed_forms (pre : List Char) (m : RegexMarker) (id : List Char)
    (hpre : ∀ c ∈ pre, isLineTerm c = false) (hm : m.Ok)
    (hlen : id.length = 11) (hid : ∀ c ∈ id, plainTokenChar c = true) :
    getYouTubeID (String.mk (pre ++ m.chars ++ id)) = some (String.mk id) := by
  have hlm : lastMatch (m.chars ++ id) = some id := by
    cases m with
    | youtuDotBe c => exact lastMatch_marker_youtu hm hid
    | vSlash => exact lastMatch_marker_vSlash hid
    | uSlash c => exact lastMatch_marker_uSlash hm hid
    | embedSlash => exact lastMatch_marker_embed hid
    | watchV => exact lastMatch_marker_watchV hid
    | ampV => exact lastMatch_marker_ampV hid
  have hall : lastMatch (pre ++ (m.chars ++ id)) = some id := lastMatch_append hpre hlm
  simp [getYouTubeID, String.toList, List.append_assoc, hall, hlen]

/-- C2: witness — the amended theorem applied to
`https://www.youtube.com/watch?v=dQw4w9WgXcQ`. -/
theorem getYouTubeID_relaxed_forms_witness :
    getYouTubeID (String.mk ("https://www.youtube.com/".toList ++
        RegexMarker.watchV.chars ++ "dQw4w9WgXcQ".toList)) =
      some (String.mk "dQw4w9WgXcQ".toList) :=
  getYouTubeID_relaxed_forms _ _ _ (by decide) trivial (by decide) (by decide)

/-- C3: counterexample to the claim as stated — after one completed session the
user clicks retake and then, while the retake call is in flight (the retake
handler never disables the generate button), submits the form again: two
generation requests are outstanding at once in a reachable state. -/
theorem overlapping_generations_counterexample :
    (run [.setInputs "https://youtu.be/dQw4w9WgXcQ" (String.mk (List.replicate 120 'a')),
          .submit,
          .complete 0 (.ok [{ question := "P1", options := ["A", "B"], answer := "A" },
                            { question := "P2", options := ["A", "B"], answer := "A" },
                            { question := "P3", options := ["A", "B"], answer := "A" },
                            { question := "P4", options := ["A", "B"], answer := "A" },
                            { question := "P5", options := ["A", "B"], answer := "A" }]),
          .click 0 0, .click 1 0, .click 2 0, .click 3 0, .click 4 0,
          .retake, .submit]
        initState).pending.length = 2 := by
  decide

/-- C3 (amended): in every reachable state at most one submit-triggered and at
most one retake-triggered call is outstanding (hence at most two in total), a
pending submit call implies the generate button is disabled, and a pending
retake call implies the retake and restart buttons are disabled.  Global
mutual exclusion does not hold: the submit control stays enabled during a
retake-triggered generation and the retake control during a submit-triggered
one. -/
theorem single_flight_per_control (s : AppState) (hs : Reachable s) :
    s.pending.countP isSubmitCall ≤ 1 ∧
    s.pending.countP isRetakeCall ≤ 1 ∧
    s.pending.length ≤ 2 ∧
    (∀ p ∈ s.pending, isSubmitCall p = true → s.generateBtnDisabled = true) ∧
    (∀ p ∈ s.pending, isRetakeCall p = true →
      s.retakeBtnDisabled = true ∧ s.restartBtnDisabled = true) := by
  obtain ⟨evs, rfl⟩ := hs
  have hinv : ControlInv (run evs initState) :=
    run_controlInv evs initState ⟨fun _ => rfl, fun _ => rfl, by simp [initState],
      by simp [initState], fun _ => rfl⟩
  obtain ⟨hg, hr, hcs, hcr, hrs⟩ := hinv
  refine ⟨hcs, hcr, ?_, ?_, ?_⟩
  · rw [length_eq_counts]
    omega
  · intro p hp hsub
    by_contra hgen
    have hgen' : (run evs initState).generateBtnDisabled = false := by simpa using hgen
    have hpos : 0 < (run evs initState).pending.countP isSubmitCall :=
      List.countP_pos_iff.mpr ⟨p, hp, hsub⟩
    have h0 := hg hgen'
    omega
  · intro p hp hret
    have hpos : 0 < (run evs initState).pending.countP isRetakeCall :=
      List.countP_pos_iff.mpr ⟨p, hp, hret⟩
    constructor
    · by_contra hbt
      have hbt' : (run evs initState).retakeBtnDisabled = false := by simpa using hbt
      have h0 := hr hbt'
      omega
    · by_contra hbt
      have hbt' : (run evs initState).restartBtnDisabled = false := by simpa using hbt
      have h0 := hrs hbt'
      omega

/-- C3: witness — the amended theorem applied to the initial state. -/
theorem single_flight_per_control_witness :
    initState.pending.countP isSubmitCall ≤ 1 ∧
    initState.pending.countP isRetakeCall ≤ 1 ∧
    initState.pending.length ≤ 2 ∧
    (∀ p ∈ initState.pending, isSubmitCall p = true → initState.generateBtnDisabled = true) ∧
    (∀ p ∈ initState.pending, isRetakeCall p = true →
      initState.retakeBtnDisabled = true ∧ initState.restartBtnDisabled = true) :=
  single_flight_per_control initState ⟨[], rfl⟩

/-- C4: a retake after a session with history `H = previousQuestions` invokes
the generator with exactly `H` as the exclusion list (the recorded request
carries `H`, and every question text of `H` occurs literally as a chunk of the
prompt), does not touch the video container on the success path, leaves
`currentTranscript` and `currentVideoId` unchanged, and appends the new
questions to the history. -/
theorem retake_frame_and_exclusion (s : AppState) (transcript vid : String)
    (qs : List QuizQuestion)
    (hp : s.pending = [])
    (hbtn : s.retakeBtnDisabled = false)
    (ht : s.currentTranscript = some transcript) (ht2 : transcript ≠ "")
    (hv : s.currentVideoId = some vid) (hv2 : vid ≠ "")
    (hqs : qs ≠ []) :
    (run [.retake, .complete 0 (.ok qs)] s).currentTranscript = some transcript ∧
    (run [.retake, .complete 0 (.ok qs)] s).currentVideoId = some vid ∧
    (run [.retake, .complete 0 (.ok qs)] s).videoContainer = s.videoContainer ∧
    (run [.retake, .complete 0 (.ok qs)] s).requests =
      s.requests ++ [{ transcript := transcript, exclude := s.previousQuestions,
                       prompt := genPrompt transcript s.previousQuestions }] ∧
    (run [.retake, .complete 0 (.ok qs)] s).previousQuestions = s.previousQuestions ++ qs ∧
    ∀ q ∈ s.previousQuestions, ∃ a b,
      genPrompt transcript s.previousQuestions = a ++ q.question.toList ++ b := by
  refine ⟨?_, ?_, ?_, ?_, ?_, fun q hq => genPrompt_contains_question transcript _ q hq⟩ <;>
    simp [run, step, retakeStart, hbtn, ht, hv, ht2, hv2, generateQuizStart, clearOutput,
      completeAt, hp, generateQuizFinish, renderQuestions, displayError, finishRetake,
      List.length_eq_zero, hqs]

/-- C4: witness — the theorem applied to a session state with one previous
question. -/
theorem retake_frame_and_exclusion_witness :
    (run [.retake, .complete 0 (.ok [{ question := "Q2", options := ["A", "B"], answer := "B" }])]
        { initState with currentTranscript := some "T", currentVideoId := some "dQw4w9WgXcQ",
                         previousQuestions := [{ question := "Q1", options := ["A", "B"],
                                                 answer := "A" }] }).currentTranscript =
      some "T" ∧
    (run [.retake, .complete 0 (.ok [{ question := "Q2", options := ["A", "B"], answer := "B" }])]
        { initState with currentTranscript := some "T", currentVideoId := some "dQw4w9WgXcQ",
                         previousQuestions := [{ question := "Q1", options := ["A", "B"],
                                                 answer := "A" }] }).currentVideoId =
      some "dQw4w9WgXcQ" ∧
    (run [.retake, .complete 0 (.ok [{ question := "Q2", options := ["A", "B"], answer := "B" }])]
        { initState with currentTranscript := some "T", currentVideoId := some "dQw4w9WgXcQ",
                         previousQuestions := [{ question := "Q1", options := ["A", "B"],
                                                 answer := "A" }] }).videoContainer =
      ({ initState with currentTranscript := some "T", currentVideoId := some "dQw4w9WgXcQ",
                        previousQuestions := [{ question := "Q1", options := ["A", "B"],
                                                answer := "A" }] } : AppState).videoContainer ∧
    (run [.retake, .complete 0 (.ok [{ question := "Q2", options := ["A", "B"], answer := "B" }])]
        { initState with currentTranscript := some "T", currentVideoId := some "dQw4w9WgXcQ",
                         previousQuestions := [{ question := "Q1", options := ["A", "B"],
                                                 answer := "A" }] }).requests =
      ({ initState with currentTranscript := some "T", currentVideoId := some "dQw4w9WgXcQ",
                        previousQuestions := [{ question := "Q1", options := ["A", "B"],
                                                answer := "A" }] } : AppState).requests ++
        [{ transcript := "T",
           exclude := [{ question := "Q1", options := ["A", "B"], answer := "A" }],
           prompt := genPrompt "T" [{ question := "Q1", options := ["A", "B"],
                                      answer := "A" }] }] ∧
    (run [.retake, .complete 0 (.ok [{ question := "Q2", options := ["A", "B"], answer := "B" }])]
        { initState with currentTranscript := some "T", currentVideoId := some "dQw4w9WgXcQ",
                         previousQuestions := [{ question := "Q1", options := ["A", "B"],
                                                 answer := "A" }] }).previousQuestions =
      [{ question := "Q1", options := ["A", "B"], answer := "A" }] ++
        [{ question := "Q2", options := ["A", "B"], answer := "B" }] ∧
    ∀ q ∈ [({ question := "Q1", options := ["A", "B"], answer := "A" } : QuizQuestion)], ∃ a b,
      genPrompt "T" [{ question := "Q1", options := ["A", "B"], answer := "A" }] =
        a ++ q.question.toList ++ b :=
  retake_frame_and_exclusion _ "T" "dQw4w9WgXcQ" _ rfl rfl rfl (by decide) rfl (by decide)
    (by decide)

/-- C6: answering a freshly rendered question whose answer equals exactly one
of its option texts marks exactly one option correct — one whose text equals
the `answer` field — and at most one option selected-and-incorrect. -/
theorem answered_question_markings (s : AppState) (i j : Nat) (q : QuizQuestion) (tj : String)
    (hi : s.questionsList[i]? = some (renderQuestion q))
    (hj : q.options[j]? = some tj)
    (hcount : q.options.count q.answer = 1) :
    ∃ rq', (clickOption i j s).questionsList[i]? = some rq' ∧
      rq'.options.countP (fun o => o.markedCorrect) = 1 ∧
      rq'.options.countP (fun o => o.markedCorrect && o.text == q.answer) = 1 ∧
      rq'.options.countP (fun o => o.selected && o.markedIncorrect) ≤ 1 := by
  have hopt : (renderQuestion q).options[j]? = some (renderOption tj) := by
    simp [renderQuestion, hj]
  have h := clickOption_unanswered s i j (renderQuestion q) (renderOption tj) hi rfl hopt
  have hmain :
      (checkAnswer (q.options.map renderOption) j tj q.answer).1.countP
        (fun o => o.markedCorrect) = 1 ∧
      (checkAnswer (q.options.map renderOption) j tj q.answer).1.countP
        (fun o => o.markedCorrect && o.text == q.answer) = 1 ∧
      (checkAnswer (q.options.map renderOption) j tj q.answer).1.countP
        (fun o => o.selected && o.markedIncorrect) ≤ 1 := by
    by_cases he : tj = q.answer
    · subst he
      have hc := checkAnswer_fresh_correct q.options j q.answer hj
      exact ⟨hc.2.1, hc.2.2.1, by rw [hc.2.2.2]; exact Nat.zero_le 1⟩
    · have hc := checkAnswer_fresh_incorrect q.options j tj q.answer hj he
      have hmem : q.answer ∈ q.options := by
        by_contra hnm
        rw [List.count_eq_zero.mpr hnm] at hcount
        exact absurd hcount (by simp)
      have hany : q.options.any (fun t => t == q.answer) = true :=
        List.any_eq_true.mpr ⟨q.answer, hmem, by simp⟩
      refine ⟨?_, ?_, ?_⟩
      · rw [hc.2.1, hany]
        rfl
      · rw [hc.2.2.1, hany]
        rfl
      · rw [hc.2.2.2]
  exact ⟨_, h.1, hmain.1, hmain.2.1, hmain.2.2⟩

/-- C6: witness — the theorem applied to a rendered four-option question,
clicking a wrong option. -/
theorem answered_question_markings_witness :
    ∃ rq', (clickOption 0 0 { initState with
        questionsList := [renderQuestion
          { question := "Q", options := ["A", "B", "C", "D"], answer := "B" }],
        totalQuestions := 1 }).questionsList[0]? = some rq' ∧
      rq'.options.countP (fun o => o.markedCorrect) = 1 ∧
      rq'.options.countP (fun o => o.markedCorrect && o.text == "B") = 1 ∧
      rq'.options.countP (fun o => o.selected && o.markedIncorrect) ≤ 1 :=
  answered_question_markings _ 0 0
    { question := "Q", options := ["A", "B", "C", "D"], answer := "B" } "A"
    rfl rfl (by decide)

/-- C7: locking is idempotent — once a rendered question carries the
`answered` lock, a click on any of its options returns the whole state
unchanged; and the first answer of an unanswered question sets the lock, so
each question moves from unanswered to locked exactly once. -/
theorem locked_click_noop :
    (∀ (s : AppState) (i j : Nat) (rq : RenderedQuestion),
        s.questionsList[i]? = some rq → rq.answered = true → clickOption i j s = s) ∧
    (∀ (s : AppState) (i j : Nat) (rq : RenderedQuestion) (opt : RenderedOption),
        s.questionsList[i]? = some rq → rq.answered = false → rq.options[j]? = some opt →
        ∃ rq', (clickOption i j s).questionsList[i]? = some rq' ∧ rq'.answered = true) := by
  constructor
  · intro s i j rq hi ha
    cases hopt : rq.options[j]? <;> simp [clickOption, hi, hopt, ha]
  · intro s i j rq opt hi ha hopt
    have h := clickOption_unanswered s i j rq opt hi ha hopt
    exact ⟨_, h.1, rfl⟩

/-- C7: witness — both parts of the theorem applied to a locked and to a fresh
rendered question. -/
theorem locked_click_noop_witness :
    (clickOption 0 0 { initState with questionsList :=
        [{ (renderQuestion { question := "Q", options := ["A", "B"], answer := "B" }) with
           answered := true }] } =
      { initState with questionsList :=
        [{ (renderQuestion { question := "Q", options := ["A", "B"], answer := "B" }) with
           answered := true }] }) ∧
    (∃ rq', (clickOption 0 0 { initState with
        questionsList := [renderQuestion
          { question := "Q", options := ["A", "B"], answer := "B" }],
        totalQuestions := 1 }).questionsList[0]? = some rq' ∧ rq'.answered = true) :=
  ⟨locked_click_noop.1 _ 0 0 _ rfl rfl,
   locked_click_noop.2 _ 0 0 _ (renderOption "A") rfl rfl rfl⟩

/-- C8: counterexample to the claim as stated — submit, answer all five
questions, click retake, submit again while the retake call is in flight;
both completions render into the same question list (ten blocks) while
`totalQuestions` keeps only the last render's 5, and after answering six of
the ten blocks `answeredQuestions = 6 > totalQuestions = 5` in a reachable
state. -/
theorem answered_exceeds_total_counterexample :
    (run [.setInputs "https://youtu.be/dQw4w9WgXcQ" (String.mk (List.replicate 120 'a')),
          .submit,
          .complete 0 (.ok [{ question := "P1", options := ["A", "B"], answer := "A" },
                            { question := "P2", options := ["A", "B"], answer := "A" },
                            { question := "P3", options := ["A", "B"], answer := "A" },
                            { question := "P4", options := ["A", "B"], answer := "A" },
                            { question := "P5", options := ["A", "B"], answer := "A" }]),
          .click 0 0, .click 1 0, .click 2 0, .click 3 0, .click 4 0,
          .retake, .submit,
          .complete 0 (.ok [{ question := "R1", options := ["A", "B"], answer := "A" },
                            { question := "R2", options := ["A", "B"], answer := "A" },
                            { question := "R3", options := ["A", "B"], answer := "A" },
                            { question := "R4", options := ["A", "B"], answer := "A" },
                            { question := "R5", options := ["A", "B"], answer := "A" }]),
          .complete 0 (.ok [{ question := "S1", options := ["A", "B"], answer := "A" },
                            { question := "S2", options := ["A", "B"], answer := "A" },
                            { question := "S3", options := ["A", "B"], answer := "A" },
                            { question := "S4", options := ["A", "B"], answer := "A" },
                            { question := "S5", options := ["A", "B"], answer := "A" }]),
          .click 0 0, .click 1 0, .click 2 0, .click 3 0, .click 4 0, .click 5 0]
        initState).totalQuestions <
      (run [.setInputs "https://youtu.be/dQw4w9WgXcQ" (String.mk (List.replicate 120 'a')),
          .submit,
          .complete 0 (.ok [{ question := "P1", options := ["A", "B"], answer := "A" },
                            { question := "P2", options := ["A", "B"], answer := "A" },
                            { question := "P3", options := ["A", "B"], answer := "A" },
                            { question := "P4", options := ["A", "B"], answer := "A" },
                            { question := "P5", options := ["A", "B"], answer := "A" }]),
          .click 0 0, .click 1 0, .click 2 0, .click 3 0, .click 4 0,
          .retake, .submit,
          .complete 0 (.ok [{ question := "R1", options := ["A", "B"], answer := "A" },
                            { question := "R2", options := ["A", "B"], answer := "A" },
                            { question := "R3", options := ["A", "B"], answer := "A" },
                            { question := "R4", options := ["A", "B"], answer := "A" },
                            { question := "R5", options := ["A", "B"], answer := "A" }]),
          .complete 0 (.ok [{ question := "S1", options := ["A", "B"], answer := "A" },
                            { question := "S2", options := ["A", "B"], answer := "A" },
                            { question := "S3", options := ["A", "B"], answer := "A" },
                            { question := "S4", options := ["A", "B"], answer := "A" },
                            { question := "S5", options := ["A", "B"], answer := "A" }]),
          .click 0 0, .click 1 0, .click 2 0, .click 3 0, .click 4 0, .click 5 0]
        initState).answeredQuestions := by
  decide

/-- C8 (amended): in every run in which a generation is started only while no
other call is in flight (`seqOK`), `answeredQuestions ≤ totalQuestions` holds
at every reachable point; rendering a non-empty question set of size `N` sets
`total = N` and resets `answered` and `correct` to `0`; and the first answer
of an unanswered question increments `answered` by exactly 1.  Without the
no-overlap restriction the invariant fails in a reachable state (see the
counterexample). -/
theorem quiz_score_invariant :
    (∀ evs : List Event, seqOK initState evs = true →
      (run evs initState).answeredQuestions ≤ (run evs initState).totalQuestions) ∧
    (∀ (qs : List QuizQuestion) (s : AppState), qs ≠ [] →
      (renderQuestions qs s).totalQuestions = qs.length ∧
      (renderQuestions qs s).answeredQuestions = 0 ∧
      (renderQuestions qs s).correctAnswers = 0) ∧
    (∀ (s : AppState) (i j : Nat) (rq : RenderedQuestion) (opt : RenderedOption),
      s.questionsList[i]? = some rq → rq.answered = false → rq.options[j]? = some opt →
      (clickOption i j s).answeredQuestions = s.answeredQuestions + 1) := by
  refine ⟨?_, ?_, ?_⟩
  · intro evs hs
    have hinv := run_scoreInv evs initState
      ⟨by simp [initState, countUnanswered], fun _ => rfl, by simp [initState]⟩ hs
    have := hinv.1
    omega
  · intro qs s hq
    have hq' : ¬ qs.length = 0 := by simpa using hq
    refine ⟨?_, ?_, ?_⟩ <;> simp [renderQuestions, hq']
  · intro s i j rq opt hi ha hj
    exact (clickOption_main_score s i j rq opt hi ha hj).2.1

/-- C8: witness — the invariant at the empty run, the render clause on a
one-question set, and the increment clause on a fresh question. -/
theorem quiz_score_invariant_witness :
    initState.answeredQuestions ≤ initState.totalQuestions ∧
    ((renderQuestions [{ question := "Q", options := ["A", "B"], answer := "A" }]
        initState).totalQuestions = 1 ∧
      (renderQuestions [{ question := "Q", options := ["A", "B"], answer := "A" }]
        initState).answeredQuestions = 0 ∧
      (renderQuestions [{ question := "Q", options := ["A", "B"], answer := "A" }]
        initState).correctAnswers = 0) ∧
    (clickOption 0 0 { initState with
      questionsList := [renderQuestion
        { question := "Q", options := ["A", "B"], answer := "A" }],
      totalQuestions := 1 }).answeredQuestions =
      ({ initState with
        questionsList := [renderQuestion
          { question := "Q", options := ["A", "B"], answer := "A" }],
        totalQuestions := 1 } : AppState).answeredQuestions + 1 :=
  ⟨quiz_score_invariant.1 [] rfl,
   quiz_score_invariant.2.1 [{ question := "Q", options := ["A", "B"], answer := "A" }]
     initState (by simp),
   quiz_score_invariant.2.2 _ 0 0 _ (renderOption "A") rfl rfl rfl⟩

/-- C9: on a failed retake the catch branch's `displayError` empties the video
container and the question list and shows the interpolated error text, while
`currentVideoId` keeps its (still truthy) value — the embedded player is
removed although the session identifier is still set. -/
theorem failed_retake_clears_video (s : AppState) (transcript vid msg : String)
    (hp : s.pending = []) (hbtn : s.retakeBtnDisabled = false)
    (ht : s.currentTranscript = some transcript) (ht2 : transcript ≠ "")
    (hv : s.currentVideoId = some vid) (hv2 : vid ≠ "") :
    (run [.retake, .complete 0 (.err msg)] s).videoContainer = none ∧
    (run [.retake, .complete 0 (.err msg)] s).questionsList = [] ∧
    (run [.retake, .complete 0 (.err msg)] s).errorVisible = true ∧
    (run [.retake, .complete 0 (.err msg)] s).errorText = "Failed to generate quiz. " ++ msg ∧
    (run [.retake, .complete 0 (.err msg)] s).currentVideoId = some vid := by
  refine ⟨?_, ?_, ?_, ?_, ?_⟩ <;>
    simp [run, step, retakeStart, hbtn, ht, hv, ht2, hv2, generateQuizStart, clearOutput,
      completeAt, hp, generateQuizFinish, displayError, finishRetake]

/-- C9: witness — the theorem applied to a session state. -/
theorem failed_retake_clears_video_witness :
    (run [.retake, .complete 0 (.err "x")]
        { initState with currentTranscript := some "T",
                         currentVideoId := some "dQw4w9WgXcQ" }).videoContainer = none ∧
    (run [.retake, .complete 0 (.err "x")]
        { initState with currentTranscript := some "T",
                         currentVideoId := some "dQw4w9WgXcQ" }).questionsList = [] ∧
    (run [.retake, .complete 0 (.err "x")]
        { initState with currentTranscript := some "T",
                         currentVideoId := some "dQw4w9WgXcQ" }).errorVisible = true ∧
    (run [.retake, .complete 0 (.err "x")]
        { initState with currentTranscript := some "T",
                         currentVideoId := some "dQw4w9WgXcQ" }).errorText =
      "Failed to generate quiz. " ++ "x" ∧
    (run [.retake, .complete 0 (.err "x")]
        { initState with currentTranscript := some "T",
                         currentVideoId := some "dQw4w9WgXcQ" }).currentVideoId =
      some "dQw4w9WgXcQ" :=
  failed_retake_clears_video _ "T" "dQw4w9WgXcQ" "x" rfl rfl rfl (by decide) rfl (by decide)

/-- C10: answering a rendered question whose `answer` matches none of its
option texts marks the clicked option selected-and-incorrect, reveals no
option as correct, leaves `correctAnswers` unchanged, and still increments
`answeredQuestions` and locks the question — the violated invariant is
silently scored as incorrect rather than reported. -/
theorem foreign_answer_scored_incorrect (s : AppState) (i j : Nat) (q : QuizQuestion)
    (tj : String) (hi : s.questionsList[i]? = some (renderQuestion q))
    (hj : q.options[j]? = some tj)
    (hcount : q.options.count q.answer = 0) :
    (clickOption i j s).correctAnswers = s.correctAnswers ∧
    (clickOption i j s).answeredQuestions = s.answeredQuestions + 1 ∧
    ∃ rq', (clickOption i j s).questionsList[i]? = some rq' ∧ rq'.answered = true ∧
      rq'.options.countP (fun o => o.markedCorrect) = 0 ∧
      rq'.options.countP (fun o => o.selected && o.markedIncorrect) = 1 := by
  have hnm : q.answer ∉ q.options := List.count_eq_zero.mp hcount
  have htj : tj ∈ q.options := List.getElem?_mem hj
  have hne : tj ≠ q.answer := fun hh => hnm (hh ▸ htj)
  have hopt : (renderQuestion q).options[j]? = some (renderOption tj) := by
    simp [renderQuestion, hj]
  have h := clickOption_unanswered s i j (renderQuestion q) (renderOption tj) hi rfl hopt
  have hc := checkAnswer_fresh_incorrect q.options j tj q.answer hj hne
  have hany : q.options.any (fun t => t == q.answer) = false := by
    by_contra hcon
    rw [Bool.not_eq_false, List.any_eq_true] at hcon
    obtain ⟨x, hx, hxx⟩ := hcon
    exact hnm ((beq_iff_eq.mp hxx) ▸ hx)
  refine ⟨?_, h.2.1, ?_⟩
  · rw [h.2.2.1]
    have h2 : (checkAnswer (renderQuestion q).options j (renderOption tj).text
        (renderQuestion q).answer).2 = false := hc.1
    simp only [h2]
    simp
  · refine ⟨_, h.1, rfl, ?_, ?_⟩
    · show (checkAnswer (renderQuestion q).options j (renderOption tj).text
          (renderQuestion q).answer).1.countP (fun o => o.markedCorrect) = 0
      have h3 : (checkAnswer (renderQuestion q).options j (renderOption tj).text
          (renderQuestion q).answer).1.countP (fun o => o.markedCorrect) =
          if (q.options.any fun t => t == q.answer) = true then 1 else 0 := hc.2.1
      rw [h3, hany]
      rfl
    · show (checkAnswer (renderQuestion q).options j (renderOption tj).text
          (renderQuestion q).answer).1.countP (fun o => o.selected && o.markedIncorrect) = 1
      exact hc.2.2.2

/-- C10: witness — the theorem applied to a rendered question whose answer
"Z" is not among its options. -/
theorem foreign_answer_scored_incorrect_witness :
    (clickOption 0 0 { initState with
        questionsList := [renderQuestion
          { question := "Q", options := ["A", "B", "C", "D"], answer := "Z" }],
        totalQuestions := 1 }).correctAnswers =
      ({ initState with
        questionsList := [renderQuestion
          { question := "Q", options := ["A", "B", "C", "D"], answer := "Z" }],
        totalQuestions := 1 } : AppState).correctAnswers ∧
    (clickOption 0 0 { initState with
        questionsList := [renderQuestion
          { question := "Q", options := ["A", "B", "C", "D"], answer := "Z" }],
        totalQuestions := 1 }).answeredQuestions =
      ({ initState with
        questionsList := [renderQuestion
          { question := "Q", options := ["A", "B", "C", "D"], answer := "Z" }],
        totalQuestions := 1 } : AppState).answeredQuestions + 1 ∧
    ∃ rq', (clickOption 0 0 { initState with
        questionsList := [renderQuestion
          { question := "Q", options := ["A", "B", "C", "D"], answer := "Z" }],
        totalQuestions := 1 }).questionsList[0]? = some rq' ∧ rq'.answered = true ∧
      rq'.options.countP (fun o => o.markedCorrect) = 0 ∧
      rq'.options.countP (fun o => o.selected && o.markedIncorrect) = 1 :=
  foreign_answer_scored_incorrect _ 0 0
    { question := "Q", options := ["A", "B", "C", "D"], answer := "Z" } "A"
    rfl rfl (by decide)

end YTQuiz
